import Mathlib

/-!
Verification of the FrontAl static bundle analyzer.

This file is a shallow embedding of the analysis modules of the FrontAl
repository (sizeAnalyzer.js, performanceAnalyzer.js, scorer.js,
lighthouseAdapter.js) together with theorems settling the frozen claims
about them.

Modelling conventions:
* JS strings that are only measured or scanned are `List Char`; a JS
  `content.length` is `List.length` (for the ASCII inputs considered the
  UTF-16 code-unit count of JS coincides with the codepoint count).
* JS numbers are exact rationals `ℚ` (or `ℤ`/`ℕ` where the source only
  ever holds integers).  `Math.round` is `jsRound` (round half toward
  +infinity, the ECMAScript rule), `x.toFixed(k)` is rounding to `k`
  decimal digits with ties rounded up, exactly the ECMAScript `toFixed`
  choice of "the larger n" on ties.  Floating-point rounding error is
  below this abstraction.
* JS `percentages.js` is the numeric value of the `toFixed(1)` string the
  source stores (JS later compares that string to numbers, which coerces
  it back to exactly this rounded value); when the total is `0` the source
  stores the number `0` and so does the model.
* Each regular expression of the source is translated to an explicit
  scanner over `List Char`; global matching (`String.match(/…/g)`) is the
  usual leftmost, non-overlapping scan, which `jsMatchAll` implements with
  an explicit fuel equal to the string length.
-/

/-! ## JS numeric helpers -/

/-- ECMAScript `Math.round`: round half toward positive infinity. -/
def jsRound (q : ℚ) : ℤ := ⌊q + 1/2⌋

/-- Numeric value of `x.toFixed(1)`: `x` rounded to one decimal digit
(ties toward positive infinity, the ECMAScript `toFixed` rule). -/
def toFixed1 (q : ℚ) : ℚ := (jsRound (q * 10) : ℚ) / 10

/-- Decimal rendering of a non-negative one-decimal value the way JS
prints a `toFixed(1)` string, e.g. `70.0` ↦ `"70.0"`. -/
def renderFixed1 (q : ℚ) : String :=
  let t : Nat := (jsRound (q * 10)).toNat
  toString (t / 10) ++ "." ++ toString (t % 10)

/-! ## Common data shapes -/

/-- An uploaded source file as the analyzers receive it:
`{ name, type, content }` with `type` one of the strings
`"html" | "css" | "js"` (anything else is an unrecognized type). -/
structure SourceFile where
  name : String
  type : String
  content : List Char
deriving DecidableEq

/-- Issue record produced by `analyzeSizes` (`{severity, title, description}`). -/
structure SizeIssue where
  severity : String
  title : String
  description : String
deriving DecidableEq

/-- Issue record produced by `analyzePerformance`
(`{severity, title, description, file, suggestion}`). -/
structure Issue where
  severity : String
  title : String
  description : String
  file : String
  suggestion : String
deriving DecidableEq

/-- Recommendation record of `analyzePerformance`. -/
structure Recommendation where
  priority : String
  title : String
  description : String
  impact : String
deriving DecidableEq

/-- Duplicate finding of `detectDuplication` (shape only; the scorer reads
just the length of the `duplicates` list). -/
structure DupFinding where
  type : String
  severity : String
  title : String
  description : String
  code : Option String
  file : Option String
deriving DecidableEq

/-- `stats` sub-record of `detectDuplication` results. -/
structure DupStats where
  duplicateLines : Nat
  duplicateBlocks : Nat
deriving DecidableEq

/-- Result shape of `detectDuplication`. -/
structure DuplicationResults where
  duplicates : List DupFinding
  stats : DupStats
deriving DecidableEq

/-- Result shape of `analyzePerformance`. -/
structure PerformanceResults where
  issues : List Issue
  recommendations : List Recommendation
deriving DecidableEq

/-! ## sizeAnalyzer.js -/

/-- The `sizes` array of `formatBytes` in sizeAnalyzer.js. -/
def sizesArray : List String := ["Bytes", "KB", "MB"]

/-- Rendering of `parseFloat(x.toFixed(2))` for a non-negative `x`:
round to two decimals (ties up) and print with redundant trailing zeros
stripped, as JS prints the resulting number. -/
def toFixed2Stripped (q : ℚ) : String :=
  let r : Nat := (jsRound (q * 100)).toNat
  let ip := r / 100
  let fr := r % 100
  if fr = 0 then toString ip
  else if fr % 10 = 0 then toString ip ++ "." ++ toString (fr / 10)
  else if fr < 10 then toString ip ++ ".0" ++ toString fr
  else toString ip ++ "." ++ toString fr

/-- `formatBytes` of sizeAnalyzer.js.  The unit index is
`Math.floor(Math.log(bytes) / Math.log(1024))`, i.e. `Nat.log 1024` in
exact arithmetic; an index past the end of the `sizes` array yields the
JS string `"undefined"` (indexing past an array end gives `undefined`,
which string concatenation renders as `"undefined"`). -/
def formatBytes (bytes : Nat) : String :=
  if bytes = 0 then "0 Bytes"
  else
    let i := Nat.log 1024 bytes
    toFixed2Stripped ((bytes : ℚ) / ((1024 : ℚ) ^ i)) ++ " " ++ sizesArray.getD i "undefined"

/-- `breakdown` sub-record of `analyzeSizes` results. -/
structure Breakdown where
  html : Nat
  css : Nat
  js : Nat
deriving DecidableEq

/-- `percentages` sub-record of `analyzeSizes` results (numeric values of
the stored `toFixed(1)` strings; the literal number `0` when the total
size is `0`). -/
structure Percentages where
  html : ℚ
  css : ℚ
  js : ℚ
deriving DecidableEq

/-- One `{label, value}` metric row of `analyzeSizes`. -/
structure SizeMetric where
  label : String
  value : String
deriving DecidableEq

/-- Result shape of `analyzeSizes`. -/
structure SizeResults where
  totalSize : Nat
  fileSizes : List (String × Nat)
  breakdown : Breakdown
  percentages : Percentages
  metrics : List SizeMetric
  issues : List SizeIssue
deriving DecidableEq

/-- Percentage as interpolated into a metric/description string: the
`toFixed(1)` string when the total is positive, the number `0` (printed
`"0"`) otherwise. -/
def renderPercent (totalSize : Nat) (p : ℚ) : String :=
  if 0 < totalSize then renderFixed1 p else "0"

/-- `analyzeSizes` of sizeAnalyzer.js.  The `forEach` accumulation of the
source is expressed as sums/maps over the file list (same fold, made
explicit); everything else follows the source line by line. -/
def analyzeSizes (files : List SourceFile) : SizeResults :=
  let totalSize : Nat := (files.map (fun f => f.content.length)).sum
  let fileSizes := files.map (fun f => (f.name, f.content.length))
  let bHtml : Nat := ((files.filter (fun f => f.type = "html")).map (fun f => f.content.length)).sum
  let bCss : Nat := ((files.filter (fun f => f.type = "css")).map (fun f => f.content.length)).sum
  let bJs : Nat := ((files.filter (fun f => f.type = "js")).map (fun f => f.content.length)).sum
  let pHtml : ℚ := if 0 < totalSize then toFixed1 (((bHtml : ℚ) / (totalSize : ℚ)) * 100) else 0
  let pCss : ℚ := if 0 < totalSize then toFixed1 (((bCss : ℚ) / (totalSize : ℚ)) * 100) else 0
  let pJs : ℚ := if 0 < totalSize then toFixed1 (((bJs : ℚ) / (totalSize : ℚ)) * 100) else 0
  let metrics : List SizeMetric :=
    [ ⟨"Total Bundle Size", formatBytes totalSize⟩,
      ⟨"HTML", formatBytes bHtml ++ " (" ++ renderPercent totalSize pHtml ++ "%)"⟩,
      ⟨"CSS", formatBytes bCss ++ " (" ++ renderPercent totalSize pCss ++ "%)"⟩,
      ⟨"JavaScript", formatBytes bJs ++ " (" ++ renderPercent totalSize pJs ++ "%)"⟩ ]
  let issues : List SizeIssue :=
    (if totalSize > 500000 then
      [⟨"warning", "Large Bundle Size",
        "Total bundle size is " ++ formatBytes totalSize ++ ". Consider code splitting and lazy loading."⟩]
     else [])
    ++ (if bJs > 250000 then
      [⟨"error", "Large JavaScript Bundle",
        "JavaScript bundle is " ++ formatBytes bJs ++ ". This can significantly impact page load time."⟩]
     else [])
    ++ (if bCss > 100000 then
      [⟨"warning", "Large CSS Bundle",
        "CSS bundle is " ++ formatBytes bCss ++ ". Consider removing unused CSS or splitting styles."⟩]
     else [])
    ++ (if pJs > 70 then
      [⟨"warning", "JavaScript-Heavy Bundle",
        "JavaScript makes up " ++ renderPercent totalSize pJs ++ "% of your bundle. Consider if all JS is necessary for initial load."⟩]
     else [])
  ⟨totalSize, fileSizes, ⟨bHtml, bCss, bJs⟩, ⟨pHtml, pCss, pJs⟩, metrics, issues⟩

/-! ## scorer.js -/

/-- One `{reason, points}` deduction entry of scorer.js. -/
structure Deduction where
  reason : String
  points : ℤ
deriving DecidableEq

/-- `details` sub-record of `calculateScore` results. -/
structure ScoreDetails where
  sizeScore : ℤ
  duplicationScore : ℤ
  performanceScore : ℤ
  deductions : List Deduction
deriving DecidableEq

/-- Result shape of `calculateScore`. -/
structure ScoreResults where
  score : ℤ
  grade : String
  category : String
  details : ScoreDetails
  summary : List String
deriving DecidableEq

/-- Size deduction of scorer.js lines 18-27: the mutually exclusive
byte-threshold chain (`1024*1024`, `500*1024 = 512000`, `250*1024 = 256000`). -/
def bundleSizeDeduction (totalSize : Nat) : ℤ :=
  if totalSize > 1024 * 1024 then 30
  else if totalSize > 500 * 1024 then 20
  else if totalSize > 250 * 1024 then 10
  else 0

/-- Deduction entries pushed by the byte-threshold chain. -/
def bundleSizeDeductionList (totalSize : Nat) : List Deduction :=
  if totalSize > 1024 * 1024 then [⟨"Bundle size > 1MB", 30⟩]
  else if totalSize > 500 * 1024 then [⟨"Bundle size > 500KB", 20⟩]
  else if totalSize > 250 * 1024 then [⟨"Bundle size > 250KB", 10⟩]
  else []

/-- JS-share deduction of scorer.js lines 30-36, applied to
`sizeResults.percentages.js` (the one-decimal rounded value). -/
def jsHeavyDeduction (p : ℚ) : ℤ :=
  if p > 80 then 10
  else if p > 70 then 5
  else 0

/-- Deduction entries pushed by the JS-share chain. -/
def jsHeavyDeductionList (p : ℚ) : List Deduction :=
  if p > 80 then [⟨"JavaScript > 80% of bundle", 10⟩]
  else if p > 70 then [⟨"JavaScript > 70% of bundle", 5⟩]
  else []

/-- Duplication deduction of scorer.js lines 41-53. -/
def duplicationDeduction (duplicateCount : Nat) : ℤ :=
  if duplicateCount > 20 then 25
  else if duplicateCount > 10 then 15
  else if duplicateCount > 5 then 10
  else if duplicateCount > 0 then 5
  else 0

/-- Deduction entries pushed by the duplication chain. -/
def duplicationDeductionList (duplicateCount : Nat) : List Deduction :=
  if duplicateCount > 20 then [⟨"20+ duplication issues", 25⟩]
  else if duplicateCount > 10 then [⟨"10+ duplication issues", 15⟩]
  else if duplicateCount > 5 then [⟨"5+ duplication issues", 10⟩]
  else if duplicateCount > 0 then [⟨"Some duplication detected", 5⟩]
  else []

/-- `getGradeAndCategory` result shape. -/
structure Grading where
  grade : String
  category : String
deriving DecidableEq

/-- `getGradeAndCategory` of scorer.js. -/
def getGradeAndCategory (score : ℤ) : Grading :=
  if score ≥ 90 then ⟨"A", "good"⟩
  else if score ≥ 75 then ⟨"B", "good"⟩
  else if score ≥ 60 then ⟨"C", "warning"⟩
  else if score ≥ 40 then ⟨"D", "warning"⟩
  else ⟨"F", "danger"⟩

/-- `generateSummary` of scorer.js. -/
def generateSummary (score : ℤ) (details : ScoreDetails) : List String :=
  (if score ≥ 90 then ["Excellent! Your code follows performance best practices."]
   else if score ≥ 75 then ["Good job! Minor optimizations could improve performance."]
   else if score ≥ 60 then ["Decent, but there\x27s room for improvement."]
   else if score ≥ 40 then ["Several performance issues detected. Review recommendations."]
   else ["Significant performance problems found. Immediate action recommended."])
  ++ (if details.sizeScore < 80 then
        ["Focus on reducing bundle size through code splitting and minification."] else [])
  ++ (if details.duplicationScore < 80 then
        ["Eliminate duplicate code to improve maintainability and reduce size."] else [])
  ++ (if details.performanceScore < 80 then
        ["Address critical performance anti-patterns identified in the analysis."] else [])

/-- `calculateScore` of scorer.js.  The mutation of `details` in the
source is expressed by assembling each component score and its deduction
entries in source order; the source subtracts each performance deduction
under an `if (deduction > 0)` guard, which equals the unconditional
subtraction used here because the skipped value is 0; `Math.round` on
the (integer) final score is the identity and is therefore omitted. -/
def calculateScore (sizeResults : SizeResults) (duplicationResults : DuplicationResults)
    (performanceResults : PerformanceResults) : ScoreResults :=
  let sizeScore : ℤ :=
    100 - bundleSizeDeduction sizeResults.totalSize - jsHeavyDeduction sizeResults.percentages.js
  let sizeDeds :=
    bundleSizeDeductionList sizeResults.totalSize ++ jsHeavyDeductionList sizeResults.percentages.js
  let duplicateCount := duplicationResults.duplicates.length
  let duplicationScore : ℤ := 100 - duplicationDeduction duplicateCount
  let dupDeds := duplicationDeductionList duplicateCount
  let errorCount := (performanceResults.issues.filter (fun i => i.severity = "error")).length
  let warningCount := (performanceResults.issues.filter (fun i => i.severity = "warning")).length
  let infoCount := (performanceResults.issues.filter (fun i => i.severity = "info")).length
  let errorDeduction : ℤ := min (5 * (errorCount : ℤ)) 25
  let warningDeduction : ℤ := min (2 * (warningCount : ℤ)) 15
  let infoDeduction : ℤ := min (1 * (infoCount : ℤ)) 5
  let performanceScore : ℤ := 100 - errorDeduction - warningDeduction - infoDeduction
  let perfDeds : List Deduction :=
    (if errorDeduction > 0 then
      [⟨toString errorCount ++ " critical performance issue(s)", errorDeduction⟩] else [])
    ++ (if warningDeduction > 0 then
      [⟨toString warningCount ++ " performance warning(s)", warningDeduction⟩] else [])
    ++ (if infoDeduction > 0 then
      [⟨toString infoCount ++ " performance suggestion(s)", infoDeduction⟩] else [])
  let details : ScoreDetails := ⟨sizeScore, duplicationScore, performanceScore,
    sizeDeds ++ dupDeds ++ perfDeds⟩
  let score : ℤ := max 0 (sizeScore + duplicationScore + performanceScore - 200)
  let grading := getGradeAndCategory score
  { score := score
    grade := grading.grade
    category := grading.category
    details := details
    summary := generateSummary score details }

/-! ## Regex scanners

Each regular expression of performanceAnalyzer.js is translated to an
explicit matcher.  A `Matcher` tries to match at the head of the input
and returns the number of characters the (leftmost, backtracking) regex
match would consume there.  Greedy character classes followed by a
delimiter excluded from the class need no backtracking and are modelled
by `takeWhile`; the two patterns that do backtrack (`<script[^>]+src=…`
and `@keyframes[^}]+\x7b…`) get dedicated matchers whose structure is
derived from the regex semantics and commented in place. -/

/-- Characters that are awkward under the file-level lexical rules,
by code point: `'` (39), `"` (34), backtick (96), `\x7b` (123), `\x7d` (125). -/
def sQuote : Char := Char.ofNat 39

/-- Double quote, `"`. -/
def dQuote : Char := Char.ofNat 34

/-- Backtick. -/
def bQuote : Char := Char.ofNat 96

/-- Opening curly brace. -/
def lBrace : Char := Char.ofNat 123

/-- Closing curly brace. -/
def rBrace : Char := Char.ofNat 125

/-- JS regex `\s` restricted to the ASCII whitespace the analyzed inputs
contain (space, tab, LF, CR, VT, FF). -/
def isJsSpace (c : Char) : Bool :=
  c = ' ' || c = '\t' || c = '\n' || c = '\r' || c = Char.ofNat 11 || c = Char.ofNat 12

/-- The char class `["']` of the source regexes. -/
def isQuoteChar (c : Char) : Bool := c = dQuote || c = sQuote

/-- A matcher: number of characters a match starting at the head consumes. -/
def Matcher : Type := List Char → Option Nat

/-- Literal text. -/
def litM (pat : List Char) : Matcher := fun s =>
  if pat.isPrefixOf s then some pat.length else none

/-- A single character from a class. -/
def charM (p : Char → Bool) : Matcher := fun s =>
  match s with
  | c :: _ => if p c then some 1 else none
  | [] => none

/-- Greedy `[class]*` (valid because every use is followed by a delimiter
excluded from the class, so the regex never backtracks into it). -/
def starM (p : Char → Bool) : Matcher := fun s => some (s.takeWhile p).length

/-- Greedy `[class]+` (same remark as `starM`). -/
def plusM (p : Char → Bool) : Matcher := fun s =>
  let n := (s.takeWhile p).length
  if n = 0 then none else some n

/-- Greedy `[class]{k,}` (same remark as `starM`). -/
def repAtLeastM (p : Char → Bool) (k : Nat) : Matcher := fun s =>
  let n := (s.takeWhile p).length
  if n < k then none else some n

/-- Sequencing of matchers. -/
def seqM (a b : Matcher) : Matcher := fun s =>
  match a s with
  | some n =>
    match b (s.drop n) with
    | some m => some (n + m)
    | none => none
  | none => none

/-- `catM [m1, …, mk]` sequences a list of matchers. -/
def catM (ms : List Matcher) : Matcher :=
  ms.foldr seqM (fun _ => some 0)

/-- Ordered alternation, as in a regex `a|b|c`. -/
def altM (ms : List Matcher) : Matcher := fun s =>
  match ms with
  | [] => none
  | m :: rest => match m s with
    | some n => some n
    | none => altM rest s

/-- Index of the first occurrence of `pat` in `s` (JS `indexOf`). -/
def findSub (pat : List Char) : List Char → Option Nat
  | [] => if pat = [] then some 0 else none
  | c :: rest =>
    if pat.isPrefixOf (c :: rest) then some 0
    else (findSub pat rest).map (· + 1)

/-- JS `String.includes`. -/
def containsSub (pat s : List Char) : Bool := (findSub pat s).isSome

/-- Lazy `[\s\S]*?pat`: consume up to and including the first occurrence
of `pat`. -/
def lazyToM (pat : List Char) : Matcher := fun s =>
  (findSub pat s).map (· + pat.length)

/-- One pass of global regex matching with explicit fuel: at each
position try the matcher; on a match record the matched slice and resume
after it (ECMAScript advances `lastIndex` by the match length, at least 1). -/
def scanMatches (m : Matcher) : Nat → List Char → List (List Char)
  | 0, _ => []
  | _, [] => []
  | fuel + 1, c :: rest =>
    match m (c :: rest) with
    | some n => (c :: rest).take n :: scanMatches m fuel ((c :: rest).drop (max n 1))
    | none => scanMatches m fuel rest

/-- All matches of `String.match(/…/g)`. -/
def jsMatchAll (m : Matcher) (s : List Char) : List (List Char) :=
  scanMatches m s.length s

/-- Number of matches (`(content.match(/…/g) || []).length`). -/
def countMatches (m : Matcher) (s : List Char) : Nat := (jsMatchAll m s).length

/-- Whether a (non-global) regex matches anywhere (`content.match(/…/)`
used as a boolean). -/
def hasMatch (m : Matcher) (s : List Char) : Bool := !(jsMatchAll m s).isEmpty

/-! ## performanceAnalyzer.js -/

/-- `<script[^>]*>[\s\S]*?<\/script>`. -/
def mScriptElem : Matcher :=
  catM [litM "<script".toList,
        seqM (starM (fun c => c ≠ '>')) (charM (fun c => c = '>')),
        lazyToM "</script>".toList]

/-- `<script[^>]+src=[^>]*>`: a `<script` open tag whose attribute text
(everything before the first `>`, which `[^>]` cannot cross) contains
`src=` at offset at least 1 (`[^>]+` needs one character before it);
with backtracking the match always ends at that first `>`. -/
def mExtScript : Matcher := fun s =>
  if ("<script".toList).isPrefixOf s then
    let rest := s.drop 7
    let attrs := rest.takeWhile (fun c => c ≠ '>')
    if attrs.length < rest.length && (findSub "src=".toList (attrs.drop 1)).isSome then
      some (7 + attrs.length + 1)
    else none
  else none

/-- `style\s*=\s*["'][^"']{50,}["']` (the `{50,}` run cannot cross a
quote, so the final `["']` is the quote ending the run). -/
def mStyleAttr50 : Matcher :=
  catM [litM "style".toList, starM isJsSpace, charM (fun c => c = '='), starM isJsSpace,
        charM isQuoteChar, repAtLeastM (fun c => !isQuoteChar c) 50, charM isQuoteChar]

/-- `<[a-z][\s\S]*?>` with the `i` flag: `<`, an ASCII letter, then
lazily up to the first `>`. -/
def mAnyTag : Matcher := fun s =>
  match s with
  | a :: b :: rest =>
    if a = '<' && b.isAlpha then
      (findSub ['>'] rest).map (fun j => 2 + j + 1)
    else none
  | _ => none

/-- The quoted-`stylesheet` part of the `<link>` regex:
`rel=["']stylesheet["']` somewhere in the attribute text. -/
def hasRelStylesheet : List Char → Bool
  | [] => false
  | c :: rest =>
    (if ("rel=".toList).isPrefixOf (c :: rest) then
      match (c :: rest).drop 4 with
      | q1 :: tail =>
        isQuoteChar q1 && ("stylesheet".toList).isPrefixOf tail &&
          (match tail.drop 10 with
           | q2 :: _ => isQuoteChar q2
           | [] => false)
      | [] => false
     else false)
    || hasRelStylesheet rest

/-- `<link[^>]+rel=["']stylesheet["'][^>]*>` (same shape as `mExtScript`:
the pattern must sit inside the attribute text before the first `>`,
after at least one character). -/
def mLinkStylesheet : Matcher := fun s =>
  if ("<link".toList).isPrefixOf s then
    let rest := s.drop 5
    let attrs := rest.takeWhile (fun c => c ≠ '>')
    if attrs.length < rest.length && hasRelStylesheet (attrs.drop 1) then
      some (5 + attrs.length + 1)
    else none
  else none

/-- JS `.` (no `s` flag): any character but a line terminator. -/
def dotOk (c : Char) : Bool := !(c = '\n' || c = '\r')

/-- First index of `target` reachable through `.`-matchable characters. -/
def findCharDot (target : Char) : List Char → Option Nat
  | [] => none
  | c :: rest =>
    if c = target then some 0
    else if dotOk c then (findCharDot target rest).map (· + 1)
    else none

/-- `\*[^{]*\x7b`: a universal selector up to its opening brace. -/
def mUniversalBrace : Matcher :=
  catM [charM (fun c => c = '*'), starM (fun c => c ≠ lBrace), charM (fun c => c = lBrace)]

/-- `\[.*?\^.*?\]`: an attribute selector with a caret. -/
def mAttrCaret : Matcher := fun s =>
  match s with
  | c :: rest =>
    if c = '[' then
      match findCharDot '^' rest with
      | some j =>
        match findCharDot ']' (rest.drop (j + 1)) with
        | some k => some (1 + j + 1 + k + 1)
        | none => none
      | none => none
    else none
  | [] => none

/-- `:nth-child\([^)]*\)`. -/
def mNthChild : Matcher :=
  catM [litM ":nth-child(".toList, starM (fun c => c ≠ ')'), charM (fun c => c = ')')]

/-- The expensive-selector alternation
`\*[^{]*\x7b|\[.*?\^.*?\]|:nth-child\([^)]*\)`. -/
def mExpensiveSelector : Matcher := altM [mUniversalBrace, mAttrCaret, mNthChild]

/-- `\x7b[^}]+\x7d`: one rule block. -/
def mRuleBlock : Matcher :=
  catM [charM (fun c => c = lBrace), plusM (fun c => c ≠ rBrace), charM (fun c => c = rBrace)]

/-- `@keyframes[^}]+\x7b[^}]+\x7d`.  Let `r` be the maximal brace-free
run after `@keyframes` (`[^}]` cannot cross `\x7d`).  Backtracking makes
`[^}]+\x7b` end at some `\x7b` inside `r` at offset ≥ 1 with at least one
character of `r` after it, and the second `[^}]+` then runs to the end of
`r`, so a match consumes `@keyframes`, all of `r` and the closing brace,
and exists iff `r` contains an inner `\x7b` (not first, not last). -/
def mKeyframes : Matcher := fun s =>
  if ("@keyframes".toList).isPrefixOf s then
    let rest := s.drop 10
    let r := rest.takeWhile (fun c => c ≠ rBrace)
    if r.length < rest.length && ((r.drop 1).dropLast).contains lBrace then
      some (10 + r.length + 1)
    else none
  else none

/-- `\.open\s*\(\s*["'][^"']+["']\s*,\s*["'][^"']+["']\s*,\s*false\s*\)`. -/
def mSyncXhr : Matcher :=
  catM [litM ".open".toList, starM isJsSpace, charM (fun c => c = '('), starM isJsSpace,
        charM isQuoteChar, plusM (fun c => !isQuoteChar c), charM isQuoteChar,
        starM isJsSpace, charM (fun c => c = ','), starM isJsSpace,
        charM isQuoteChar, plusM (fun c => !isQuoteChar c), charM isQuoteChar,
        starM isJsSpace, charM (fun c => c = ','), starM isJsSpace,
        litM "false".toList, starM isJsSpace, charM (fun c => c = ')')]

/-- The layout-read alternation of the forced-reflow regex. -/
def mReflowTrigger : Matcher :=
  altM [litM "offsetHeight".toList, litM "offsetWidth".toList,
        litM "clientHeight".toList, litM "clientWidth".toList,
        litM "scrollHeight".toList, litM "scrollWidth".toList,
        litM "getComputedStyle".toList, litM "getBoundingClientRect".toList]

/-- `console\.(log|warn|error|debug)`. -/
def mConsoleCall : Matcher :=
  seqM (litM "console.".toList)
    (altM [litM "log".toList, litM "warn".toList, litM "error".toList, litM "debug".toList])

/-- `\$\s*\(`. -/
def mDollarParen : Matcher :=
  catM [charM (fun c => c = '$'), starM isJsSpace, charM (fun c => c = '(')]

/-- `addEventListener\s*\(` and friends. -/
def mCallOf (name : String) : Matcher :=
  catM [litM name.toList, starM isJsSpace, charM (fun c => c = '(')]

/-- The HTML checks of `analyzeHtmlPerformance` for one file, in source
order.  `fileInfo` is the `' (in name)'` suffix used when several files
are analyzed. -/
def htmlFileIssues (f : SourceFile) (fileInfo : String) : List Issue :=
  let content := f.content
  let inlineScripts := jsMatchAll mScriptElem content
  let blockingScripts := inlineScripts.filter (fun sc =>
    !containsSub "async".toList sc && !containsSub "defer".toList sc &&
      containsSub "<script>".toList sc)
  let externalScripts := jsMatchAll mExtScript content
  let syncExternalScripts := externalScripts.filter (fun sc =>
    !containsSub "async".toList sc && !containsSub "defer".toList sc)
  let inlineStyles := jsMatchAll mStyleAttr50 content
  let elementCount := countMatches mAnyTag content
  let longInlineScripts := inlineScripts.filter (fun sc => sc.length > 1000)
  let cssLinks := jsMatchAll mLinkStylesheet content
  let blockingCss := cssLinks.filter (fun l => !containsSub "media=".toList l)
  (if blockingScripts.length > 0 then
    [⟨"error", "Render-Blocking Scripts",
      "Found " ++ toString blockingScripts.length ++ " inline script(s) without async/defer"
        ++ fileInfo ++ ". These block page rendering.",
      f.name, "Add defer or async attributes, or move scripts to bottom of body."⟩]
   else [])
  ++ (if syncExternalScripts.length > 0 then
    [⟨"warning", "Synchronous External Scripts",
      toString syncExternalScripts.length ++ " external script(s) load synchronously"
        ++ fileInfo ++ ", blocking page rendering.",
      f.name, "Add defer attribute for scripts that don\x27t need to run immediately."⟩]
   else [])
  ++ (if inlineStyles.length > 5 then
    [⟨"warning", "Excessive Inline Styles",
      "Found " ++ toString inlineStyles.length ++ " elements with large inline styles"
        ++ fileInfo ++ ".",
      f.name, "Move styles to external CSS file for better caching and maintainability."⟩]
   else [])
  ++ (if elementCount > 1500 then
    [⟨"warning", "Large DOM Size",
      "Document contains approximately " ++ toString elementCount ++ " elements"
        ++ fileInfo ++ ". Large DOMs slow down rendering.",
      f.name, "Simplify DOM structure, use virtualization for large lists."⟩]
   else [])
  ++ (if !containsSub "viewport".toList content then
    [⟨"info", "Missing Viewport Meta Tag",
      "No viewport meta tag found" ++ fileInfo ++ ".",
      f.name, "Add <meta name=\"viewport\" content=\"width=device-width, initial-scale=1\"> for mobile optimization."⟩]
   else [])
  ++ (if longInlineScripts.length > 0 then
    [⟨"warning", "Long Inline Scripts",
      "Found " ++ toString longInlineScripts.length ++ " inline script(s) larger than 1KB"
        ++ fileInfo ++ ".",
      f.name, "Move large scripts to external files for better caching."⟩]
   else [])
  ++ (if blockingCss.length > 3 then
    [⟨"warning", "Multiple Render-Blocking CSS Files",
      toString blockingCss.length ++ " CSS files block initial render" ++ fileInfo ++ ".",
      f.name, "Consider inlining critical CSS and lazy-loading non-critical styles."⟩]
   else [])

/-- The CSS checks of `analyzeCssPerformance` for one file, in source order. -/
def cssFileIssues (f : SourceFile) (fileInfo : String) : List Issue :=
  let content := f.content
  let expensiveSelectors := countMatches mExpensiveSelector content
  let imports := countMatches (litM "@import".toList) content
  let rules := countMatches mRuleBlock content
  let animations := jsMatchAll mKeyframes content
  let complexAnimations := animations.filter (fun anim =>
    containsSub "width".toList anim || containsSub "height".toList anim ||
      containsSub "top".toList anim || containsSub "left".toList anim)
  (if expensiveSelectors > 5 then
    [⟨"warning", "Expensive CSS Selectors",
      "Found " ++ toString expensiveSelectors ++ " potentially expensive selector(s)"
        ++ fileInfo ++ " (universal, attribute, nth-child).",
      f.name, "Use simpler, class-based selectors for better performance."⟩]
   else [])
  ++ (if imports > 0 then
    [⟨"error", "CSS @import Usage",
      "Found " ++ toString imports ++ " @import statement(s)" ++ fileInfo
        ++ ". These prevent parallel downloads.",
      f.name, "Use &lt;link&gt; tags instead of @import for better performance."⟩]
   else [])
  ++ (if rules > 1000 then
    [⟨"warning", "Large CSS File",
      "CSS file contains " ++ toString rules ++ " rules" ++ fileInfo
        ++ ". Large stylesheets slow down parsing.",
      f.name, "Split into smaller files, remove unused CSS, or use critical CSS."⟩]
   else [])
  ++ (if complexAnimations.length > 0 then
    [⟨"info", "Layout-Triggering Animations",
      "Found " ++ toString complexAnimations.length ++ " animation(s) that may trigger layout"
        ++ fileInfo ++ ".",
      f.name, "Use transform and opacity for animations to leverage GPU acceleration."⟩]
   else [])

/-- The JS checks of `analyzeJsPerformance` for one file, in source order. -/
def jsFileIssues (f : SourceFile) (fileInfo : String) : List Issue :=
  let content := f.content
  let syncXHR := countMatches mSyncXhr content
  let reflowTriggers := countMatches mReflowTrigger content
  let consoleLogs := countMatches mConsoleCall content
  let libraries : List String :=
    (if containsSub "jQuery".toList content || hasMatch mDollarParen content then ["jQuery"] else [])
    ++ (if containsSub "lodash".toList content || containsSub "_underscore".toList content then
          ["Lodash/Underscore"] else [])
    ++ (if containsSub "moment".toList content then ["Moment.js"] else [])
  let eventListeners := countMatches (mCallOf "addEventListener") content
  let intervals := countMatches (mCallOf "setInterval") content
  let clearIntervals := countMatches (mCallOf "clearInterval") content
  (if syncXHR > 0 then
    [⟨"error", "Synchronous XMLHttpRequest",
      "Found " ++ toString syncXHR ++ " synchronous XHR call(s)" ++ fileInfo
        ++ ". These block the main thread.",
      f.name, "Use async XHR or fetch API instead."⟩]
   else [])
  ++ (if reflowTriggers > 20 then
    [⟨"warning", "Potential Forced Reflows",
      "Found " ++ toString reflowTriggers ++ " property access(es) that may trigger reflow"
        ++ fileInfo ++ ".",
      f.name, "Batch DOM reads, cache layout properties, avoid layout thrashing."⟩]
   else [])
  ++ (if consoleLogs > 5 then
    [⟨"info", "Console Statements",
      "Found " ++ toString consoleLogs ++ " console statement(s)" ++ fileInfo ++ ".",
      f.name, "Remove console statements from production code."⟩]
   else [])
  ++ (if libraries.length > 0 then
    [⟨"info", "Large Utility Libraries Detected",
      "Detected: " ++ String.intercalate ", " libraries ++ fileInfo ++ ". These can be large.",
      f.name, "Consider smaller alternatives or use native APIs when possible."⟩]
   else [])
  ++ (if eventListeners > 20 then
    [⟨"info", "Many Event Listeners",
      "Found " ++ toString eventListeners ++ " addEventListener calls" ++ fileInfo ++ ".",
      f.name, "Consider using event delegation to reduce memory usage."⟩]
   else [])
  ++ (if intervals > clearIntervals then
    [⟨"warning", "Potential Memory Leak",
      toString intervals ++ " setInterval calls but only " ++ toString clearIntervals
        ++ " clearInterval" ++ fileInfo ++ ". May cause memory leaks.",
      f.name, "Ensure all intervals are cleared when no longer needed."⟩]
   else [])

/-- `generateRecommendations` of performanceAnalyzer.js. -/
def generateRecommendations (files : List SourceFile) : List Recommendation :=
  let totalSize : Nat := (files.map (fun f => f.content.length)).sum
  let jsSize : Nat := ((files.filter (fun f => f.type = "js")).map (fun f => f.content.length)).sum
  let cssSize : Nat := ((files.filter (fun f => f.type = "css")).map (fun f => f.content.length)).sum
  (if (jsSize : ℚ) > (totalSize : ℚ) * (1/2) then
    [⟨"high", "Reduce JavaScript Execution Time",
      "JavaScript makes up over 50% of your bundle. Consider code splitting, tree shaking, and lazy loading non-critical scripts.",
      "High - Can significantly improve Time to Interactive (TTI)"⟩]
   else [])
  ++ (if (cssSize : ℚ) > (totalSize : ℚ) * (3/10) then
    [⟨"medium", "Optimize CSS Delivery",
      "Extract and inline critical CSS, defer non-critical styles, and remove unused CSS rules.",
      "Medium - Improves First Contentful Paint (FCP)"⟩]
   else [])
  ++ [⟨"high", "Enable Text Compression",
      "Ensure your server compresses text-based resources (HTML, CSS, JS) with gzip or Brotli.",
      "High - Can reduce transfer size by 70-80%"⟩,
     ⟨"medium", "Implement Resource Hints",
      "Use &lt;link rel=\"preload\"&gt; for critical resources and &lt;link rel=\"prefetch\"&gt; for future navigation.",
      "Medium - Reduces perceived load time"⟩]
  ++ (if files.any (fun f => f.type = "html" && !containsSub "cache-control".toList f.content) then
    [⟨"medium", "Leverage Browser Caching",
      "Set appropriate cache headers for static resources to avoid redundant downloads.",
      "Medium - Improves repeat visit performance"⟩]
   else [])
  ++ [⟨"high", "Minimize Main-Thread Work",
      "Break up long tasks, use Web Workers for heavy computations, and defer non-critical JavaScript.",
      "High - Improves responsiveness and TTI"⟩,
     ⟨"low", "Optimize Images",
      "Use modern formats (WebP, AVIF), implement lazy loading, and serve responsive images.",
      "Variable - Depends on image usage"⟩]

/-- `analyzePerformance` of performanceAnalyzer.js: group files by type,
run the HTML, CSS and JS scanners in that order (each only when at least
one file of the type exists), then append recommendations. -/
def analyzePerformance (files : List SourceFile) : PerformanceResults :=
  let isMultiFile := files.length > 1
  let fileInfo := fun (f : SourceFile) => if isMultiFile then " (in " ++ f.name ++ ")" else ""
  let htmlFiles := files.filter (fun f => f.type = "html")
  let cssFiles := files.filter (fun f => f.type = "css")
  let jsFiles := files.filter (fun f => f.type = "js")
  let issues :=
    (if htmlFiles.length > 0 then htmlFiles.flatMap (fun f => htmlFileIssues f (fileInfo f)) else [])
    ++ (if cssFiles.length > 0 then cssFiles.flatMap (fun f => cssFileIssues f (fileInfo f)) else [])
    ++ (if jsFiles.length > 0 then jsFiles.flatMap (fun f => jsFileIssues f (fileInfo f)) else [])
  { issues := issues, recommendations := generateRecommendations files }

/-- Severity rank used by FrontAl's ordering notion (its own test suite's
`severityMap`): error 0, warning 1, info 2 (anything else would be JS
`undefined`; rank 3 here, never reached by produced findings). -/
def severityRank (s : String) : Nat :=
  if s = "error" then 0 else if s = "warning" then 1 else if s = "info" then 2 else 3

/-- Whether a list of severities is sorted by rank (errors first, then
warnings, then infos). -/
def sortedBySeverity : List String → Bool
  | [] => true
  | [_] => true
  | a :: b :: rest => decide (severityRank a ≤ severityRank b) && sortedBySeverity (b :: rest)

/-! ## lighthouseAdapter.js -/

/-- The `details` sub-object of a raw Lighthouse audit entry (only the
fields the adapter reads). -/
structure LhAuditDetails where
  type : Option String
  overallSavingsMs : Option ℚ
  overallSavingsBytes : Option ℚ
deriving DecidableEq

/-- A raw Lighthouse audit entry.  `Option ℚ` fields are `some` exactly
when the JS value is a (finite) number; `Option String` fields are `some`
when the property is present. -/
structure LhAudit where
  title : String
  description : Option String
  score : Option ℚ
  scoreDisplayMode : Option String
  numericValue : Option ℚ
  displayValue : Option String
  details : Option LhAuditDetails
deriving DecidableEq

/-- A raw Lighthouse category entry. -/
structure LhCategory where
  title : String
  score : Option ℚ
deriving DecidableEq

/-- Insertion-ordered maps, as JS objects with string keys behave for
`Object.keys` / `Object.values`. -/
abbrev LhCategories : Type := List (String × LhCategory)

/-- Raw `audits` map. -/
abbrev LhAudits : Type := List (String × LhAudit)

/-- The object the adapter validates: it must expose `categories` and
`audits`. -/
structure LhObject where
  categories : Option LhCategories
  audits : Option LhAudits
deriving DecidableEq

/-- The raw argument of `adaptLighthouseResults`: the report may carry
the real object nested under `lighthouse` or `lhr`, or be the object
itself. -/
structure RawAuditData where
  lighthouse : Option LhObject
  lhr : Option LhObject
  categories : Option LhCategories
  audits : Option LhAudits
deriving DecidableEq

/-- `rawData.lighthouse || rawData.lhr || rawData` of the source (an
object is always truthy, so a present nested object wins). -/
def effectiveObject (r : RawAuditData) : LhObject :=
  match r.lighthouse with
  | some l => l
  | none =>
    match r.lhr with
    | some l => l
    | none => ⟨r.categories, r.audits⟩

/-- `getScoreCategory` of lighthouseAdapter.js. -/
def getScoreCategory (score : ℤ) : String :=
  if score ≥ 90 then "good" else if score ≥ 70 then "warning" else "danger"

/-- Replacement-based scanning with fuel: `m` returns the consumed length
and the replacement text for a match at the head (JS `String.replace`
with a `g` flag: leftmost, non-overlapping). -/
def replaceScan (m : List Char → Option (Nat × List Char)) : Nat → List Char → List Char
  | 0, s => s
  | _, [] => []
  | fuel + 1, c :: rest =>
    match m (c :: rest) with
    | some (n, rep) => rep ++ replaceScan m fuel ((c :: rest).drop (max n 1))
    | none => c :: replaceScan m fuel rest

/-- First index of `pat` reachable through `.`-matchable characters. -/
def findSubDot (pat : List Char) : List Char → Option Nat
  | [] => none
  | c :: rest =>
    if pat.isPrefixOf (c :: rest) then some 0
    else if dotOk c then (findSubDot pat rest).map (· + 1)
    else none

/-- First index `j` with `a` at `j` and `b` right after, reachable
through `.`-matchable characters. -/
def findPairDot (a b : Char) : List Char → Option Nat
  | [] => none
  | [_] => none
  | x :: y :: rest =>
    if x = a && y = b then some 0
    else if dotOk x then (findPairDot a b (y :: rest)).map (· + 1)
    else none

/-- `\[(.*?)\]\((.*?)\)` replaced by `$1`: the lazy groups make the match
end at the first `](` after `[` and the first `)` after that. -/
def mdLink (s : List Char) : Option (Nat × List Char) :=
  match s with
  | c :: rest =>
    if c = '[' then
      match findPairDot ']' '(' rest with
      | some j =>
        match findCharDot ')' (rest.drop (j + 2)) with
        | some k => some (1 + j + 2 + k + 1, rest.take j)
        | none => none
      | none => none
    else none
  | [] => none

/-- `\*\*(.*?)\*\*` replaced by `$1`. -/
def mdBold (s : List Char) : Option (Nat × List Char) :=
  if ['*', '*'].isPrefixOf s then
    match findSubDot ['*', '*'] (s.drop 2) with
    | some j => some (2 + j + 2, (s.drop 2).take j)
    | none => none
  else none

/-- `\*(.*?)\*` replaced by `$1`. -/
def mdItalic (s : List Char) : Option (Nat × List Char) :=
  match s with
  | c :: rest =>
    if c = '*' then
      match findCharDot '*' rest with
      | some j => some (1 + j + 1, rest.take j)
      | none => none
    else none
  | [] => none

/-- Backtick-code `$1` replacement. -/
def mdCode (s : List Char) : Option (Nat × List Char) :=
  match s with
  | c :: rest =>
    if c = bQuote then
      match findCharDot bQuote rest with
      | some j => some (1 + j + 1, rest.take j)
      | none => none
    else none
  | [] => none

/-- `stripMarkdown` of lighthouseAdapter.js: the four global replaces in
source order (links, bold, italic, inline code); `!text` only triggers on
the empty string here. -/
def stripMarkdown (text : String) : String :=
  if text = "" then ""
  else
    let l0 := text.toList
    let l1 := replaceScan mdLink l0.length l0
    let l2 := replaceScan mdBold l1.length l1
    let l3 := replaceScan mdItalic l2.length l2
    String.mk (replaceScan mdCode l3.length l3)

/-- `formatMs` of lighthouseAdapter.js (`typeof value !== 'number'` is the
`none` case). -/
def formatMs (value : Option ℚ) : String :=
  match value with
  | some q => toString (jsRound q) ++ " ms"
  | none => "--"

/-- The adapter's local `formatBytes` (renamed here to avoid clashing with
the sizeAnalyzer function of the same name). -/
def lighthouseFormatBytes (value : Option ℚ) : String :=
  match value with
  | none => "--"
  | some q =>
    if q < 1024 then toString (jsRound q) ++ " B"
    else if q < 1024 * 1024 then renderFixed1 (q / 1024) ++ " KB"
    else renderFixed1 (q / (1024 * 1024)) ++ " MB"

/-- `thresholds` argument of `buildMetric`. -/
structure LhThresholds where
  good : ℚ
  warn : ℚ
deriving DecidableEq

/-- `getRating` of lighthouseAdapter.js. -/
def getRating (value : Option ℚ) (thresholds : LhThresholds) : String :=
  match value with
  | none => "warning"
  | some v =>
    if v ≤ thresholds.good then "good"
    else if v ≤ thresholds.warn then "warning"
    else "danger"

/-- A core-vitals metric row. -/
structure LhMetric where
  id : String
  label : String
  value : String
  rating : String
deriving DecidableEq

/-- JS property access `audits[id]` on the insertion-ordered map. -/
def lookupAudit (audits : LhAudits) (id : String) : Option LhAudit :=
  (audits.find? (fun p => p.fst = id)).map Prod.snd

/-- `buildMetric` of lighthouseAdapter.js.  `audit.displayValue || X`
falls through on a missing or empty display string. -/
def buildMetric (audits : LhAudits) (id label : String) (thresholds : LhThresholds)
    (fallbackId : Option String) : Option LhMetric :=
  let audit :=
    match lookupAudit audits id with
    | some a => some a
    | none =>
      match fallbackId with
      | some fb => lookupAudit audits fb
      | none => none
  match audit with
  | none => none
  | some a =>
    let numericValue := a.numericValue
    let fallbackDisplay :=
      match numericValue with
      | some q => formatMs (some q)
      | none => "--"
    let displayValue :=
      match a.displayValue with
      | some s => if s = "" then fallbackDisplay else s
      | none => fallbackDisplay
    some ⟨id, label, displayValue, getRating numericValue thresholds⟩

/-- Issue record built by the adapter. -/
structure LhIssue where
  severity : String
  title : String
  description : String
  suggestion : String
deriving DecidableEq

/-- JS `String.trim` (whitespace from both ends). -/
def jsTrim (s : String) : String :=
  String.mk (((s.toList.dropWhile isJsSpace).reverse.dropWhile isJsSpace).reverse)

/-- The filter of `buildIssues`: a present `numeric` display mode and a
numeric score (`typeof audit.score === 'number'`). -/
def lhScoreable (a : LhAudit) : Bool :=
  a.scoreDisplayMode = some "numeric" && a.score.isSome

/-- Comparator of `buildIssues` (`(a, b) => a.score - b.score`, an
ascending stable sort). -/
def lhScoreLe (a b : LhAudit) : Bool :=
  a.score.getD 0 ≤ b.score.getD 0

/-- The issue record `buildIssues` maps a kept audit to (three-way
severity exactly as in the source; the `info` arm is dead because kept
audits score below 0.9). -/
def lhIssueOfAudit (a : LhAudit) : LhIssue :=
  { severity :=
      if a.score.getD 0 < 1/2 then "error"
      else if a.score.getD 0 < 9/10 then "warning"
      else "info"
    title := a.title
    description := jsTrim (stripMarkdown (a.description.getD "")
      ++ (match a.displayValue with
          | some d => if d = "" then "" else " (" ++ d ++ ")"
          | none => ""))
    suggestion := "Review this audit in Lighthouse for detailed guidance." }

/-- `buildIssues` of lighthouseAdapter.js: filter scoreable audits, keep
scores < 0.9, sort ascending by score (JS `Array.sort` is stable), cap at
8, map to issue records. -/
def buildIssues (audits : LhAudits) : List LhIssue :=
  let auditList :=
    ((((audits.map Prod.snd).filter lhScoreable).filter
        (fun a => a.score.getD 0 < 9/10)).mergeSort lhScoreLe).take 8
  auditList.map lhIssueOfAudit

/-- Recommendation record built by the adapter. -/
structure LhRecommendation where
  priority : String
  title : String
  description : String
  impact : String
deriving DecidableEq

/-- `details.overallSavingsMs || 0` of the sort comparator. -/
def lhSavings (a : LhAudit) : ℚ :=
  match a.details with
  | some d => d.overallSavingsMs.getD 0
  | none => 0

/-- `buildRecommendations` of lighthouseAdapter.js (opportunity audits,
sorted descending by estimated savings, capped at 8). -/
def buildRecommendations (audits : LhAudits) : List LhRecommendation :=
  let opportunities :=
    (((audits.map Prod.snd).filter (fun a =>
        match a.details with
        | some d => d.type = some "opportunity"
        | none => false)).mergeSort (fun a b => lhSavings b ≤ lhSavings a)).take 8
  opportunities.map (fun a =>
    let savingsMs := lhSavings a
    let savingsBytes : ℚ :=
      match a.details with
      | some d => d.overallSavingsBytes.getD 0
      | none => 0
    let priority :=
      if savingsMs > 1200 then "high" else if savingsMs > 300 then "medium" else "low"
    let impactParts : List String :=
      (if savingsMs ≠ 0 then ["Estimated savings: " ++ formatMs (some savingsMs)] else [])
      ++ (if savingsBytes ≠ 0 then ["Transfer savings: " ++ lighthouseFormatBytes (some savingsBytes)] else [])
    { priority := priority
      title := a.title
      description := stripMarkdown (a.description.getD "")
      impact :=
        if impactParts.isEmpty then "Review this opportunity in Lighthouse."
        else String.intercalate " | " impactParts })

/-- A category-score row. -/
structure LhCategoryScore where
  id : String
  title : String
  score : ℤ
  status : String
deriving DecidableEq

/-- `buildCategoryScores` of lighthouseAdapter.js. -/
def buildCategoryScores (categories : LhCategories) : List LhCategoryScore :=
  categories.map (fun p =>
    let score : ℤ :=
      match p.snd.score with
      | some q => jsRound (q * 100)
      | none => 0
    ⟨p.fst, p.snd.title, score, getScoreCategory score⟩)

/-- `scoreResults` record of the adapter. -/
structure LhScoreResults where
  score : ℤ
  category : String
  summary : List String
  mode : String
deriving DecidableEq

/-- `performanceResults` record of the adapter. -/
structure LhPerformanceResults where
  issues : List LhIssue
  recommendations : List LhRecommendation
  mode : String
deriving DecidableEq

/-- `lighthouseResults` record of the adapter. -/
structure LhResults where
  categoryScores : List LhCategoryScore
  coreVitals : List LhMetric
deriving DecidableEq

/-- Overall adapter output. -/
structure AdaptedResults where
  performanceResults : LhPerformanceResults
  scoreResults : LhScoreResults
  lighthouseResults : LhResults
deriving DecidableEq

/-- `adaptLighthouseResults` of lighthouseAdapter.js; `throw new Error`
is the `Except.error` branch (nothing of the output is produced there). -/
def adaptLighthouseResults (rawData : Option RawAuditData) : Except String AdaptedResults :=
  match rawData with
  | none => Except.error "Invalid Lighthouse data."
  | some r =>
    let lhr := effectiveObject r
    match lhr.categories, lhr.audits with
    | some cats, some auds =>
      let categoryScores := buildCategoryScores cats
      let performanceScore := categoryScores.find? (fun item => item.id = "performance")
      let perfValue : ℤ :=
        match performanceScore with
        | some p => p.score
        | none => 0
      let scoreResults : LhScoreResults :=
        { score := perfValue
          category := getScoreCategory perfValue
          summary :=
            ["Lighthouse audit complete. Review category scores and top opportunities.",
             "Focus on the lowest-scoring category to prioritize improvements."]
          mode := "lighthouse" }
      let performanceResults : LhPerformanceResults :=
        { issues := buildIssues auds
          recommendations := buildRecommendations auds
          mode := "lighthouse" }
      let coreVitals :=
        [ buildMetric auds "first-contentful-paint" "First Contentful Paint" ⟨1800, 3000⟩ none,
          buildMetric auds "largest-contentful-paint" "Largest Contentful Paint" ⟨2500, 4000⟩ none,
          buildMetric auds "total-blocking-time" "Total Blocking Time" ⟨200, 600⟩ none,
          buildMetric auds "cumulative-layout-shift" "Cumulative Layout Shift" ⟨1/10, 1/4⟩ none,
          buildMetric auds "speed-index" "Speed Index" ⟨3400, 5800⟩ none,
          buildMetric auds "interactive" "Time to Interactive" ⟨3800, 7300⟩ none,
          buildMetric auds "interaction-to-next-paint" "Interaction to Next Paint" ⟨200, 500⟩
            (some "first-input-delay") ].filterMap id
      Except.ok
        { performanceResults := performanceResults
          scoreResults := scoreResults
          lighthouseResults := { categoryScores := categoryScores, coreVitals := coreVitals } }
    | _, _ => Except.error "Invalid Lighthouse data."

/-! ## calculateCombinedUrlScore of scorer.js -/

/-- Duck-typed input of `calculateCombinedUrlScore`: an object carrying a
possibly-non-numeric `score` and possibly a `details` record
(`Number.isFinite(x && x.score)` is `score.isSome` here). -/
structure UrlScoreInput where
  score : Option ℚ
  details : Option ScoreDetails
deriving DecidableEq

/-- `sourceScores` sub-record of the combined result. -/
structure SourceScores where
  staticScore : Option ℤ
  lighthouseScore : Option ℤ
  staticWeight : ℚ
  lighthouseWeight : ℚ
deriving DecidableEq

/-- Result shape of `calculateCombinedUrlScore`. -/
structure CombinedScoreResults where
  score : ℤ
  grade : String
  category : String
  details : ScoreDetails
  summary : List String
  mode : String
  sourceScores : SourceScores
deriving DecidableEq

/-- `Math.max(0, Math.min(100, Math.round(x)))`. -/
def clampScore (q : ℚ) : ℤ := max 0 (min 100 (jsRound q))

/-- `calculateCombinedUrlScore` of scorer.js.  `staticScore || 0` only
replaces `null` by `0` here (a clamped score of `0` is falsy in JS, but
`0 * weight = 0` either way); `Math.round` of the integer
`targetPerformanceScore` is the identity and is omitted; `0.1` is the
exact rational `1/10`. -/
def calculateCombinedUrlScore (staticScoreResults lighthouseScoreResults : Option UrlScoreInput) :
    CombinedScoreResults :=
  let staticScore : Option ℤ :=
    match staticScoreResults with
    | some s =>
      match s.score with
      | some q => some (clampScore q)
      | none => none
    | none => none
  let lighthouseScore : Option ℤ :=
    match lighthouseScoreResults with
    | some s =>
      match s.score with
      | some q => some (clampScore q)
      | none => none
    | none => none
  let weights : ℚ × ℚ :=
    match staticScore, lighthouseScore with
    | some _, some _ => (1/2, 1/2)
    | some _, none => (1, 0)
    | none, some _ => (0, 1)
    | none, none => (0, 0)
  let combinedScore : ℤ :=
    jsRound ((staticScore.getD 0 : ℚ) * weights.1 + (lighthouseScore.getD 0 : ℚ) * weights.2)
  let baseDetails : ScoreDetails :=
    match staticScoreResults with
    | some s =>
      match s.details with
      | some d => ⟨d.sizeScore, d.duplicationScore, d.performanceScore, d.deductions⟩
      | none => ⟨100, 100, 100, []⟩
    | none => ⟨100, 100, 100, []⟩
  let finalDetails : ScoreDetails :=
    match staticScore, lighthouseScore with
    | some ss, some ls =>
      let targetPerformanceScore := max 0 (min 100 (baseDetails.performanceScore + (combinedScore - ss)))
      let d := { baseDetails with performanceScore := targetPerformanceScore }
      if ls < 90 then
        { d with deductions := d.deductions ++
            [⟨"Lighthouse performance score impact", max 1 (jsRound (((100 - ls : ℤ) : ℚ) * (1/10)))⟩] }
      else d
    | none, some ls =>
      let d := { baseDetails with performanceScore := ls }
      if ls < 90 then
        { d with deductions := d.deductions ++
            [⟨"Lighthouse score below optimal range", max 1 (jsRound (((100 - ls : ℤ) : ℚ) * (1/10)))⟩] }
      else d
    | _, _ => baseDetails
  let grading := getGradeAndCategory combinedScore
  { score := combinedScore
    grade := grading.grade
    category := grading.category
    details := finalDetails
    summary := generateSummary combinedScore finalDetails
    mode := "combined"
    sourceScores := ⟨staticScore, lighthouseScore, weights.1, weights.2⟩ }

/-! ## Concrete inputs used by the theorems -/

/-- A CSS file whose checks fire a warning (expensive selectors) before an
error (`@import` usage): six `:nth-child` selectors and one `@import`. -/
def cssUnsortedFile : SourceFile :=
  ⟨"styles.css", "css",
   ("@import x; :nth-child(a) :nth-child(b) :nth-child(c) :nth-child(d) :nth-child(e) :nth-child(f)").toList⟩

/-- A single 300000-byte HTML file: large enough for the scorer's
`> 250*1024` deduction, small enough to produce no size issue. -/
def largeHtmlFiles : List SourceFile :=
  [⟨"page.html", "html", List.replicate 300000 'a'⟩]

/-- The empty duplication report (the value `detectDuplication([])`
returns). -/
def emptyDuplication : DuplicationResults := ⟨[], ⟨0, 0⟩⟩

/-- An empty performance report (issue-less, as `analyzePerformance`
produces whenever no check fires). -/
def emptyPerformance : PerformanceResults := ⟨[], []⟩

/-- 7004 bytes of JS next to 2996 bytes of HTML: a raw JS share of
70.04%, which rounds to 70.0. -/
def jsHeavyBoundaryFiles : List SourceFile :=
  [⟨"app.js", "js", List.replicate 7004 'b'⟩, ⟨"page.html", "html", List.replicate 2996 'a'⟩]

/-- A raw audit report exposing both `categories` and `audits`. -/
def validRawReport : RawAuditData :=
  ⟨none, none, some [("performance", ⟨"Performance", some 1⟩)], some []⟩

/-- A raw audit report lacking `audits`. -/
def invalidRawReport : RawAuditData :=
  ⟨none, none, some [("performance", ⟨"Performance", some 1⟩)], none⟩

/-- A synthetic error-severity performance issue. -/
def syntheticErrorIssue : Issue :=
  ⟨"error", "Synchronous XMLHttpRequest", "synthetic", "app.js", "none"⟩

/-! ## Specification-side definitions used in theorem statements -/

/-- The selection the claim about `buildIssues` describes: audit entries
with a scoreable (`numeric`) display mode and a numeric score below 0.9,
sorted ascending by score, truncated to 8. -/
def specSelectedAudits (audits : LhAudits) : List LhAudit :=
  (((audits.map Prod.snd).filter
      (fun a => lhScoreable a && decide (a.score.getD 0 < 9/10))).mergeSort lhScoreLe).take 8

/-- The issue record with the claim's two-way severity: error below 0.5,
warning otherwise (other fields as `lhIssueOfAudit`). -/
def lhIssueOfAuditSpec (a : LhAudit) : LhIssue :=
  { severity := if a.score.getD 0 < 1/2 then "error" else "warning"
    title := a.title
    description := jsTrim (stripMarkdown (a.description.getD "")
      ++ (match a.displayValue with
          | some d => if d = "" then "" else " (" ++ d ++ ")"
          | none => ""))
    suggestion := "Review this audit in Lighthouse for detailed guidance." }

/-- The score of a combined-score input as the source extracts it
(`x && x.score` filtered through `Number.isFinite`). -/
def extractScore (x : Option UrlScoreInput) : Option ℚ :=
  match x with
  | some s => s.score
  | none => none

/-- Specification-side restatement of the combination rule: each present
finite score is rounded and clamped into [0,100]; two present scores are
averaged 50/50 and rounded; one present score is returned as is; none
gives 0. -/
def combinedScoreSpec (sq lq : Option ℚ) : ℤ :=
  match sq, lq with
  | some a, some b => jsRound ((clampScore a : ℚ) / 2 + (clampScore b : ℚ) / 2)
  | some a, none => clampScore a
  | none, some b => clampScore b
  | none, none => 0

/-! ## Helper lemmas -/

theorem jsRound_intCast (a : ℤ) : jsRound (a : ℚ) = a := by
  unfold jsRound
  exact Int.floor_eq_iff.mpr ⟨by linarith, by linarith⟩

theorem jsRound_nonneg {q : ℚ} (h : 0 ≤ q) : 0 ≤ jsRound q := by
  unfold jsRound
  exact Int.le_floor.mpr (by push_cast; linarith)

theorem jsRound_le_hundred {q : ℚ} (h : q ≤ 100) : jsRound q ≤ 100 := by
  unfold jsRound
  exact Int.floor_le_iff.mpr (by push_cast; linarith)

theorem clampScore_nonneg (q : ℚ) : 0 ≤ clampScore q := le_max_left 0 _

theorem clampScore_le_hundred (q : ℚ) : clampScore q ≤ 100 := by
  unfold clampScore
  omega

theorem bundleSizeDeduction_bounds (n : ℕ) :
    0 ≤ bundleSizeDeduction n ∧ bundleSizeDeduction n ≤ 30 := by
  unfold bundleSizeDeduction
  split_ifs <;> norm_num

theorem jsHeavyDeduction_bounds (p : ℚ) :
    0 ≤ jsHeavyDeduction p ∧ jsHeavyDeduction p ≤ 10 := by
  unfold jsHeavyDeduction
  split_ifs <;> norm_num

theorem duplicationDeduction_bounds (n : ℕ) :
    0 ≤ duplicationDeduction n ∧ duplicationDeduction n ≤ 25 := by
  unfold duplicationDeduction
  split_ifs <;> norm_num

theorem calculateScore_sizeScore (size : SizeResults) (dup : DuplicationResults)
    (perf : PerformanceResults) :
    (calculateScore size dup perf).details.sizeScore
      = 100 - bundleSizeDeduction size.totalSize - jsHeavyDeduction size.percentages.js := rfl

theorem calculateScore_duplicationScore (size : SizeResults) (dup : DuplicationResults)
    (perf : PerformanceResults) :
    (calculateScore size dup perf).details.duplicationScore
      = 100 - duplicationDeduction dup.duplicates.length := rfl

theorem calculateScore_performanceScore (size : SizeResults) (dup : DuplicationResults)
    (perf : PerformanceResults) :
    (calculateScore size dup perf).details.performanceScore
      = 100 - min (5 * ((perf.issues.filter (fun i => i.severity = "error")).length : ℤ)) 25
          - min (2 * ((perf.issues.filter (fun i => i.severity = "warning")).length : ℤ)) 15
          - min (1 * ((perf.issues.filter (fun i => i.severity = "info")).length : ℤ)) 5 := rfl

theorem calculateScore_score (size : SizeResults) (dup : DuplicationResults)
    (perf : PerformanceResults) :
    (calculateScore size dup perf).score
      = max 0 ((calculateScore size dup perf).details.sizeScore
          + (calculateScore size dup perf).details.duplicationScore
          + (calculateScore size dup perf).details.performanceScore - 200) := rfl

theorem calculateScore_grade (size : SizeResults) (dup : DuplicationResults)
    (perf : PerformanceResults) :
    (calculateScore size dup perf).grade
      = (getGradeAndCategory (calculateScore size dup perf).score).grade := rfl

theorem getGradeAndCategory_A {s : ℤ} (h : 90 ≤ s) :
    getGradeAndCategory s = ⟨"A", "good"⟩ := by
  unfold getGradeAndCategory
  rw [if_pos h]

/-! ## Claim theorems -/

/-- C1: the claim says the issue lists returned by `detectDuplication`
and `analyzePerformance` are sorted by severity rank (error, warning,
info).  No sort exists in either module; on a CSS file with six
`:nth-child` selectors and one `@import`, `analyzePerformance` returns a
warning ("Expensive CSS Selectors") before an error ("CSS @import
Usage") — the evaluation below exhibits the unsorted output the
repository's own test suite asserts against. -/
theorem c1_issues_not_sorted_by_severity :
    (analyzePerformance [cssUnsortedFile]).issues.map (fun i => i.severity)
      = ["warning", "error"]
    ∧ sortedBySeverity ((analyzePerformance [cssUnsortedFile]).issues.map (fun i => i.severity))
      = false :=
  ⟨by decide, by decide⟩

/-- C4: for every triple of analyzer outputs, the final score equals
`max(0, sizeScore + duplicationScore + performanceScore − 200)` (an
integer, so `Math.round` is the identity) and lies in `[0, 100]`. -/
theorem c4_calculate_score_bounded (size : SizeResults) (dup : DuplicationResults)
    (perf : PerformanceResults) :
    (calculateScore size dup perf).score
      = max 0 ((calculateScore size dup perf).details.sizeScore
          + (calculateScore size dup perf).details.duplicationScore
          + (calculateScore size dup perf).details.performanceScore - 200)
    ∧ 0 ≤ (calculateScore size dup perf).score
    ∧ (calculateScore size dup perf).score ≤ 100 := by
  refine ⟨calculateScore_score size dup perf, ?_, ?_⟩
  · rw [calculateScore_score]
    exact le_max_left 0 _
  · rw [calculateScore_score, calculateScore_sizeScore, calculateScore_duplicationScore,
      calculateScore_performanceScore]
    have hb := bundleSizeDeduction_bounds size.totalSize
    have hj := jsHeavyDeduction_bounds size.percentages.js
    have hd := duplicationDeduction_bounds dup.duplicates.length
    omega

/-- C5: the performance component is
`100 − min(5·e, 25) − min(2·w, 15) − min(1·i, 5)` for the error, warning
and info counts of the performance issues; in particular 20 synthetic
error issues deduct exactly 25 points (component 75), not 100. -/
theorem c5_performance_component_capped (size : SizeResults) (dup : DuplicationResults)
    (issues : List Issue) (recs : List Recommendation) :
    (calculateScore size dup ⟨issues, recs⟩).details.performanceScore
      = 100 - min (5 * (issues.countP (fun i => i.severity = "error") : ℤ)) 25
          - min (2 * (issues.countP (fun i => i.severity = "warning") : ℤ)) 15
          - min (1 * (issues.countP (fun i => i.severity = "info") : ℤ)) 5
    ∧ (calculateScore size dup ⟨List.replicate 20 syntheticErrorIssue, recs⟩).details.performanceScore
      = 100 - 25 := by
  constructor
  · simp only [List.countP_eq_length_filter]
    exact calculateScore_performanceScore size dup ⟨issues, recs⟩
  · rw [calculateScore_performanceScore]
    have he : (((⟨List.replicate 20 syntheticErrorIssue, recs⟩ : PerformanceResults).issues.filter
        (fun i => i.severity = "error")).length : ℤ) = 20 := by
      simp [List.filter_replicate, syntheticErrorIssue]
    have hw : (((⟨List.replicate 20 syntheticErrorIssue, recs⟩ : PerformanceResults).issues.filter
        (fun i => i.severity = "warning")).length : ℤ) = 0 := by
      simp [List.filter_replicate, syntheticErrorIssue]
    have hi : (((⟨List.replicate 20 syntheticErrorIssue, recs⟩ : PerformanceResults).issues.filter
        (fun i => i.severity = "info")).length : ℤ) = 0 := by
      simp [List.filter_replicate, syntheticErrorIssue]
    rw [he, hw, hi]
    norm_num

/-- C6: grade and category boundaries are inclusive at the lower bound:
≥90 A/good, 75–89 B/good, 60–74 C/warning, 40–59 D/warning, ≤39 F/danger. -/
theorem c6_grade_boundaries (s : ℤ) :
    (90 ≤ s → getGradeAndCategory s = ⟨"A", "good"⟩)
    ∧ (75 ≤ s ∧ s ≤ 89 → getGradeAndCategory s = ⟨"B", "good"⟩)
    ∧ (60 ≤ s ∧ s ≤ 74 → getGradeAndCategory s = ⟨"C", "warning"⟩)
    ∧ (40 ≤ s ∧ s ≤ 59 → getGradeAndCategory s = ⟨"D", "warning"⟩)
    ∧ (s ≤ 39 → getGradeAndCategory s = ⟨"F", "danger"⟩) := by
  unfold getGradeAndCategory
  refine ⟨?_, ?_, ?_, ?_, ?_⟩ <;> intro h <;> split_ifs <;> first | rfl | omega

/-- C6 witness: the eight boundary scores of the claim, via
`c6_grade_boundaries`. -/
theorem c6_grade_boundaries_witness :
    getGradeAndCategory 90 = ⟨"A", "good"⟩ ∧ getGradeAndCategory 89 = ⟨"B", "good"⟩
    ∧ getGradeAndCategory 75 = ⟨"B", "good"⟩ ∧ getGradeAndCategory 74 = ⟨"C", "warning"⟩
    ∧ getGradeAndCategory 60 = ⟨"C", "warning"⟩ ∧ getGradeAndCategory 59 = ⟨"D", "warning"⟩
    ∧ getGradeAndCategory 40 = ⟨"D", "warning"⟩ ∧ getGradeAndCategory 39 = ⟨"F", "danger"⟩ :=
  ⟨(c6_grade_boundaries 90).1 (by norm_num),
   (c6_grade_boundaries 89).2.1 ⟨by norm_num, by norm_num⟩,
   (c6_grade_boundaries 75).2.1 ⟨by norm_num, by norm_num⟩,
   (c6_grade_boundaries 74).2.2.1 ⟨by norm_num, by norm_num⟩,
   (c6_grade_boundaries 60).2.2.1 ⟨by norm_num, by norm_num⟩,
   (c6_grade_boundaries 59).2.2.2.1 ⟨by norm_num, by norm_num⟩,
   (c6_grade_boundaries 40).2.2.2.1 ⟨by norm_num, by norm_num⟩,
   (c6_grade_boundaries 39).2.2.2.2 (by norm_num)⟩

theorem analyzeSizes_totalSize (files : List SourceFile) :
    (analyzeSizes files).totalSize = (files.map (fun f => f.content.length)).sum := rfl

theorem analyzeSizes_js (files : List SourceFile) :
    (analyzeSizes files).breakdown.js
      = ((files.filter (fun f => f.type = "js")).map (fun f => f.content.length)).sum := rfl

theorem analyzeSizes_css (files : List SourceFile) :
    (analyzeSizes files).breakdown.css
      = ((files.filter (fun f => f.type = "css")).map (fun f => f.content.length)).sum := rfl

theorem analyzeSizes_percentJs (files : List SourceFile) :
    (analyzeSizes files).percentages.js
      = (if 0 < (analyzeSizes files).totalSize then
          toFixed1 ((((analyzeSizes files).breakdown.js : ℚ)
            / ((analyzeSizes files).totalSize : ℚ)) * 100)
         else 0) := rfl

theorem analyzeSizes_issues_eq (files : List SourceFile) :
    (analyzeSizes files).issues
      = (if (analyzeSizes files).totalSize > 500000 then
          [⟨"warning", "Large Bundle Size",
            "Total bundle size is " ++ formatBytes (analyzeSizes files).totalSize
              ++ ". Consider code splitting and lazy loading."⟩]
         else [])
        ++ (if (analyzeSizes files).breakdown.js > 250000 then
          [⟨"error", "Large JavaScript Bundle",
            "JavaScript bundle is " ++ formatBytes (analyzeSizes files).breakdown.js
              ++ ". This can significantly impact page load time."⟩]
         else [])
        ++ (if (analyzeSizes files).breakdown.css > 100000 then
          [⟨"warning", "Large CSS Bundle",
            "CSS bundle is " ++ formatBytes (analyzeSizes files).breakdown.css
              ++ ". Consider removing unused CSS or splitting styles."⟩]
         else [])
        ++ (if (analyzeSizes files).percentages.js > 70 then
          [⟨"warning", "JavaScript-Heavy Bundle",
            "JavaScript makes up "
              ++ renderPercent (analyzeSizes files).totalSize (analyzeSizes files).percentages.js
              ++ "% of your bundle. Consider if all JS is necessary for initial load."⟩]
         else []) := rfl

theorem mem_if_singleton {α : Type} {c : Prop} [Decidable c] {x a : α} :
    a ∈ (if c then [x] else []) ↔ c ∧ a = x := by
  split_ifs with hc
  · simp [hc]
  · simp [hc]

theorem if_singleton_eq_nil {α : Type} {c : Prop} [Decidable c] {x : α}
    (h : (if c then [x] else []) = []) : ¬c := by
  intro hc
  rw [if_pos hc] at h
  exact List.cons_ne_nil x [] h

/-- C2 (amended): for analyzer outputs whose three issue lists are empty,
the score is at least 90 with grade A; it is exactly 100 only under the
additional hypothesis that the total size is at most 256000 bytes (the
scorer deducts 10 points for `totalSize > 250*1024` even when the size
report carries no issue, since the size-issue threshold is 500000). -/
theorem c2_empty_issue_lists_grade (files : List SourceFile) (dup : DuplicationResults)
    (perf : PerformanceResults) (hs : (analyzeSizes files).issues = [])
    (hd : dup.duplicates = []) (hp : perf.issues = []) :
    ((calculateScore (analyzeSizes files) dup perf).grade = "A"
      ∧ 90 ≤ (calculateScore (analyzeSizes files) dup perf).score)
    ∧ ((analyzeSizes files).totalSize ≤ 256000
        → (calculateScore (analyzeSizes files) dup perf).score = 100) := by
  have hiss := (analyzeSizes_issues_eq files).symm.trans hs
  obtain ⟨h1, h2, h3, h4⟩ : _ ∧ _ ∧ _ ∧ _ := by
    have e1 := List.append_eq_nil.mp hiss
    have e2 := List.append_eq_nil.mp e1.1
    have e3 := List.append_eq_nil.mp e2.1
    exact ⟨e3.1, e3.2, e2.2, e1.2⟩
  have hc1 : ¬((analyzeSizes files).totalSize > 500000) := if_singleton_eq_nil h1
  have hc4 : ¬((analyzeSizes files).percentages.js > 70) := if_singleton_eq_nil h4
  have hjh : jsHeavyDeduction (analyzeSizes files).percentages.js = 0 := by
    unfold jsHeavyDeduction
    rw [if_neg (fun h80 => hc4 (lt_trans (by norm_num) h80)), if_neg hc4]
  have hdd : duplicationDeduction dup.duplicates.length = 0 := by
    rw [hd]
    rfl
  have hperf : (calculateScore (analyzeSizes files) dup perf).details.performanceScore = 100 := by
    rw [calculateScore_performanceScore, hp]
    norm_num
  have hscore : (calculateScore (analyzeSizes files) dup perf).score
      = max 0 (100 - bundleSizeDeduction (analyzeSizes files).totalSize + 100 + 100 - 200) := by
    rw [calculateScore_score, calculateScore_sizeScore, calculateScore_duplicationScore, hperf,
      hjh, hdd]
    ring_nf
  have hbsd : bundleSizeDeduction (analyzeSizes files).totalSize = 0
      ∨ bundleSizeDeduction (analyzeSizes files).totalSize = 10 := by
    unfold bundleSizeDeduction
    split_ifs <;> omega
  have h90 : 90 ≤ (calculateScore (analyzeSizes files) dup perf).score := by
    rw [hscore]
    rcases hbsd with hb | hb <;> rw [hb] <;> norm_num
  refine ⟨⟨?_, h90⟩, ?_⟩
  · rw [calculateScore_grade, getGradeAndCategory_A h90]
  · intro hle
    have hb0 : bundleSizeDeduction (analyzeSizes files).totalSize = 0 := by
      unfold bundleSizeDeduction
      split_ifs <;> omega
    rw [hscore, hb0]
    norm_num

/-- C2 counterexample: a single 300000-byte HTML file yields a size
report with an empty issues list, yet `calculateScore` on it (with empty
duplication and performance reports) returns 90, not 100 — the claim
"empty issue lists imply score exactly 100" is false on the code. -/
theorem c2_counterexample_score_90 :
    (analyzeSizes largeHtmlFiles).issues = []
    ∧ emptyDuplication.duplicates = []
    ∧ (analyzePerformance []).issues = []
    ∧ (calculateScore (analyzeSizes largeHtmlFiles) emptyDuplication (analyzePerformance [])).score = 90
    ∧ (calculateScore (analyzeSizes largeHtmlFiles) emptyDuplication (analyzePerformance [])).score ≠ 100 := by
  have ht : (analyzeSizes largeHtmlFiles).totalSize = 300000 := by
    rw [analyzeSizes_totalSize]
    simp only [largeHtmlFiles, List.map_cons, List.map_nil, List.sum_cons, List.sum_nil,
      List.length_replicate]
    norm_num
  have hjs : (analyzeSizes largeHtmlFiles).breakdown.js = 0 := by
    have hfil : largeHtmlFiles.filter (fun f => f.type = "js") = [] := rfl
    rw [analyzeSizes_js, hfil]
    rfl
  have hcss : (analyzeSizes largeHtmlFiles).breakdown.css = 0 := by
    have hfil : largeHtmlFiles.filter (fun f => f.type = "css") = [] := rfl
    rw [analyzeSizes_css, hfil]
    rfl
  have hpjs : (analyzeSizes largeHtmlFiles).percentages.js = 0 := by
    rw [analyzeSizes_percentJs, ht, hjs, if_pos (by norm_num)]
    norm_num [toFixed1, jsRound]
  have hiss : (analyzeSizes largeHtmlFiles).issues = [] := by
    rw [analyzeSizes_issues_eq, ht, hjs, hcss, hpjs]
    norm_num
  have hperf : (analyzePerformance []).issues = [] := rfl
  have hscore :
      (calculateScore (analyzeSizes largeHtmlFiles) emptyDuplication (analyzePerformance [])).score
        = 90 := by
    rw [calculateScore_score, calculateScore_sizeScore, calculateScore_duplicationScore,
      calculateScore_performanceScore, ht, hpjs, hperf]
    norm_num [bundleSizeDeduction, jsHeavyDeduction, duplicationDeduction, emptyDuplication]
  exact ⟨hiss, rfl, hperf, hscore, by rw [hscore]; norm_num⟩

/-- C2 witness: the empty file set satisfies every hypothesis of the
amended claim and scores exactly 100 with grade A. -/
theorem c2_empty_issue_lists_grade_witness :
    ((analyzeSizes []).issues = [] ∧ emptyDuplication.duplicates = []
      ∧ (analyzePerformance []).issues = [] ∧ (analyzeSizes []).totalSize ≤ 256000)
    ∧ (calculateScore (analyzeSizes []) emptyDuplication (analyzePerformance [])).grade = "A"
    ∧ (calculateScore (analyzeSizes []) emptyDuplication (analyzePerformance [])).score = 100 := by
  have ht : (analyzeSizes []).totalSize = 0 := rfl
  have hpjs : (analyzeSizes []).percentages.js = 0 := rfl
  have hs : (analyzeSizes []).issues = [] := by
    rw [analyzeSizes_issues_eq, ht, hpjs]
    norm_num [analyzeSizes_js, analyzeSizes_css]
  have h := c2_empty_issue_lists_grade [] emptyDuplication (analyzePerformance []) hs rfl rfl
  exact ⟨⟨hs, rfl, rfl, by rw [ht]; norm_num⟩, h.1.1, h.2 (by rw [ht]; norm_num)⟩

theorem formatBytes_eval {n : ℕ} (hn : n ≠ 0) :
    formatBytes n
      = toFixed2Stripped ((n : ℚ) / ((1024 : ℚ) ^ Nat.log 1024 n)) ++ " "
          ++ sizesArray.getD (Nat.log 1024 n) "undefined" := by
  unfold formatBytes
  rw [if_neg hn]

/-- C3 (amended): `formatBytes 0 = "0 Bytes"`; the four example values of
the claim hold; and for every `0 < n < 1024^3` the chosen unit index
`i = Nat.log 1024 n` is exactly the largest one whose displayed magnitude
`n / 1024^i` is at least 1 (`1024^i ≤ n < 1024^(i+1)`), it stays inside
the three-entry unit array, and the output is the two-decimal rounded,
zero-stripped magnitude followed by that unit.  The restriction
`n < 1024^3` is forced: beyond it the source indexes past the end of its
`sizes` array (see the counterexample). -/
theorem c3_format_bytes_unit_selection :
    formatBytes 0 = "0 Bytes"
    ∧ formatBytes 1024 = "1 KB"
    ∧ formatBytes 1048576 = "1 MB"
    ∧ formatBytes 1536 = "1.5 KB"
    ∧ formatBytes 1555 = "1.52 KB"
    ∧ ∀ n : ℕ, 0 < n → n < 1024 ^ 3 →
        1024 ^ Nat.log 1024 n ≤ n
        ∧ n < 1024 ^ (Nat.log 1024 n + 1)
        ∧ Nat.log 1024 n < 3
        ∧ formatBytes n
          = toFixed2Stripped ((n : ℚ) / ((1024 : ℚ) ^ Nat.log 1024 n)) ++ " "
              ++ sizesArray.getD (Nat.log 1024 n) "undefined" := by
  refine ⟨rfl, ?_, ?_, ?_, ?_, ?_⟩
  · have hlog : Nat.log 1024 1024 = 1 := Nat.log_eq_of_pow_le_of_lt_pow (by norm_num) (by norm_num)
    rw [formatBytes_eval (by norm_num), hlog]
    have hq : ((1024 : ℕ) : ℚ) / (1024 : ℚ) ^ 1 = 1 := by norm_num
    rw [hq]
    have hr : jsRound ((1 : ℚ) * 100) = 100 := by
      unfold jsRound
      norm_num
    simp only [toFixed2Stripped, hr]
    rfl
  · have hlog : Nat.log 1024 1048576 = 2 :=
      Nat.log_eq_of_pow_le_of_lt_pow (by norm_num) (by norm_num)
    rw [formatBytes_eval (by norm_num), hlog]
    have hq : ((1048576 : ℕ) : ℚ) / (1024 : ℚ) ^ 2 = 1 := by norm_num
    rw [hq]
    have hr : jsRound ((1 : ℚ) * 100) = 100 := by
      unfold jsRound
      norm_num
    simp only [toFixed2Stripped, hr]
    rfl
  · have hlog : Nat.log 1024 1536 = 1 := Nat.log_eq_of_pow_le_of_lt_pow (by norm_num) (by norm_num)
    rw [formatBytes_eval (by norm_num), hlog]
    have hq : ((1536 : ℕ) : ℚ) / (1024 : ℚ) ^ 1 = 3 / 2 := by norm_num
    rw [hq]
    have hr : jsRound ((3 / 2 : ℚ) * 100) = 150 := by
      unfold jsRound
      norm_num
    simp only [toFixed2Stripped, hr]
    rfl
  · have hlog : Nat.log 1024 1555 = 1 := Nat.log_eq_of_pow_le_of_lt_pow (by norm_num) (by norm_num)
    rw [formatBytes_eval (by norm_num), hlog]
    have hq : ((1555 : ℕ) : ℚ) / (1024 : ℚ) ^ 1 = 1555 / 1024 := by norm_num
    rw [hq]
    have hr : jsRound ((1555 / 1024 : ℚ) * 100) = 152 := by
      unfold jsRound
      rw [show ((1555 / 1024 : ℚ) * 100 + 1 / 2) = 39003 / 256 by norm_num]
      norm_num
    simp only [toFixed2Stripped, hr]
    rfl
  · intro n h0 h3
    have hpow := Nat.pow_log_le_self 1024 h0.ne'
    have hlt := Nat.lt_pow_succ_log_self (by norm_num : 1 < 1024) n
    have hi3 : Nat.log 1024 n < 3 :=
      (Nat.pow_lt_pow_iff_right (by norm_num)).mp (lt_of_le_of_lt hpow h3)
    exact ⟨hpow, hlt, hi3, formatBytes_eval h0.ne'⟩

/-- C3 counterexample: at `n = 1024^3 = 1073741824` the unit index is 3,
past the end of the `sizes` array, and the source returns the string
`"1 undefined"` instead of the claimed largest in-range unit
(`"1024 MB"`), so the claim fails for general non-negative `n`. -/
theorem c3_counterexample_undefined_unit :
    formatBytes 1073741824 = "1 undefined"
    ∧ formatBytes 1073741824 ≠ "1024 MB" := by
  have hlog : Nat.log 1024 1073741824 = 3 :=
    Nat.log_eq_of_pow_le_of_lt_pow (by norm_num) (by norm_num)
  have h1 : formatBytes 1073741824 = "1 undefined" := by
    rw [formatBytes_eval (by norm_num), hlog]
    have hq : ((1073741824 : ℕ) : ℚ) / (1024 : ℚ) ^ 3 = 1 := by norm_num
    rw [hq]
    have hr : jsRound ((1 : ℚ) * 100) = 100 := by
      unfold jsRound
      norm_num
    simp only [toFixed2Stripped, hr]
    rfl
  exact ⟨h1, by rw [h1]; decide⟩

/-- C3 witness: the universally quantified part of
`c3_format_bytes_unit_selection` applied at `n = 1536`. -/
theorem c3_format_bytes_unit_selection_witness :
    0 < 1536 ∧ 1536 < 1024 ^ 3
    ∧ (1024 ^ Nat.log 1024 1536 ≤ 1536
        ∧ 1536 < 1024 ^ (Nat.log 1024 1536 + 1)
        ∧ Nat.log 1024 1536 < 3
        ∧ formatBytes 1536
          = toFixed2Stripped ((1536 : ℚ) / ((1024 : ℚ) ^ Nat.log 1024 1536)) ++ " "
              ++ sizesArray.getD (Nat.log 1024 1536) "undefined") :=
  ⟨by norm_num, by norm_num,
   c3_format_bytes_unit_selection.2.2.2.2.2 1536 (by norm_num) (by norm_num)⟩

/-- C9: the JS-share thresholds are applied to the percentage after
rounding to one decimal place.  For file sets of positive total size the
stored `percentages.js` is `toFixed1` of the raw share; the
"JavaScript-Heavy Bundle" issue is present exactly when that rounded
value exceeds 70; and the scorer's size component subtracts
`jsHeavyDeduction` of that same rounded value (10 above 80, 5 above 70,
0 otherwise) on top of the byte deduction. -/
theorem c9_thresholds_use_rounded_percent (files : List SourceFile) (dup : DuplicationResults)
    (perf : PerformanceResults) (h : 0 < (analyzeSizes files).totalSize) :
    (analyzeSizes files).percentages.js
      = toFixed1 ((((analyzeSizes files).breakdown.js : ℚ)
          / ((analyzeSizes files).totalSize : ℚ)) * 100)
    ∧ ((∃ i ∈ (analyzeSizes files).issues, i.title = "JavaScript-Heavy Bundle")
        ↔ 70 < (analyzeSizes files).percentages.js)
    ∧ (calculateScore (analyzeSizes files) dup perf).details.sizeScore
      = 100 - bundleSizeDeduction (analyzeSizes files).totalSize
          - jsHeavyDeduction (analyzeSizes files).percentages.js := by
  refine ⟨by rw [analyzeSizes_percentJs, if_pos h], ?_, calculateScore_sizeScore _ dup perf⟩
  rw [analyzeSizes_issues_eq]
  constructor
  · rintro ⟨i, hmem, htitle⟩
    rcases List.mem_append.mp hmem with hmem | hmem
    · rcases List.mem_append.mp hmem with hmem | hmem
      · rcases List.mem_append.mp hmem with hmem | hmem
        · obtain ⟨-, rfl⟩ := mem_if_singleton.mp hmem
          simp at htitle
        · obtain ⟨-, rfl⟩ := mem_if_singleton.mp hmem
          simp at htitle
      · obtain ⟨-, rfl⟩ := mem_if_singleton.mp hmem
        simp at htitle
    · exact (mem_if_singleton.mp hmem).1
  · intro h70
    refine ⟨_, List.mem_append.mpr (Or.inr (mem_if_singleton.mpr ⟨h70, rfl⟩)), rfl⟩

/-- C9 witness: 7004 bytes of JS against 2996 bytes of HTML gives a raw
JS share of 70.04% (strictly above 70) whose one-decimal rounding is
70.0, so neither the "JavaScript-Heavy Bundle" issue nor any JS-share
deduction fires. -/
theorem c9_thresholds_use_rounded_percent_witness :
    0 < (analyzeSizes jsHeavyBoundaryFiles).totalSize
    ∧ (70 : ℚ) < (((analyzeSizes jsHeavyBoundaryFiles).breakdown.js : ℚ)
        / ((analyzeSizes jsHeavyBoundaryFiles).totalSize : ℚ)) * 100
    ∧ (analyzeSizes jsHeavyBoundaryFiles).percentages.js = 70
    ∧ ¬(∃ i ∈ (analyzeSizes jsHeavyBoundaryFiles).issues, i.title = "JavaScript-Heavy Bundle")
    ∧ (calculateScore (analyzeSizes jsHeavyBoundaryFiles) emptyDuplication emptyPerformance).details.sizeScore
      = 100 := by
  have ht : (analyzeSizes jsHeavyBoundaryFiles).totalSize = 10000 := by
    rw [analyzeSizes_totalSize]
    simp only [jsHeavyBoundaryFiles, List.map_cons, List.map_nil, List.sum_cons, List.sum_nil,
      List.length_replicate]
    norm_num
  have hjs : (analyzeSizes jsHeavyBoundaryFiles).breakdown.js = 7004 := by
    have hfil : jsHeavyBoundaryFiles.filter (fun f => f.type = "js")
        = [⟨"app.js", "js", List.replicate 7004 'b'⟩] := rfl
    rw [analyzeSizes_js, hfil]
    simp only [List.map_cons, List.map_nil, List.sum_cons, List.sum_nil, List.length_replicate]
    norm_num
  have hpos : 0 < (analyzeSizes jsHeavyBoundaryFiles).totalSize := by
    rw [ht]
    norm_num
  have hraw : (70 : ℚ) < (((analyzeSizes jsHeavyBoundaryFiles).breakdown.js : ℚ)
      / ((analyzeSizes jsHeavyBoundaryFiles).totalSize : ℚ)) * 100 := by
    rw [ht, hjs]
    norm_num
  have hc := c9_thresholds_use_rounded_percent jsHeavyBoundaryFiles emptyDuplication
    emptyPerformance hpos
  have hp70 : (analyzeSizes jsHeavyBoundaryFiles).percentages.js = 70 := by
    rw [hc.1, ht, hjs]
    unfold toFixed1 jsRound
    rw [show (((7004 : ℕ) : ℚ) / ((10000 : ℕ) : ℚ) * 100 * 10 + 1 / 2) = 7009 / 10 by push_cast; norm_num]
    norm_num
  refine ⟨hpos, hraw, hp70, ?_, ?_⟩
  · intro hex
    have := hc.2.1.mp hex
    rw [hp70] at this
    exact absurd this (by norm_num)
  · rw [hc.2.2, ht, hp70]
    norm_num [bundleSizeDeduction, jsHeavyDeduction]

/-- C7: the audit adapter errors out iff the effective raw object (the
report itself, or the object nested under `lighthouse`/`lhr`) lacks the
`categories` map or the `audits` map; every error carries the message
"Invalid Lighthouse data." (so no partial result exists on that path),
and with both maps present it returns a normal result. -/
theorem c7_adapter_validation (r : RawAuditData) :
    ((∃ msg, adaptLighthouseResults (some r) = Except.error msg)
      ↔ ((effectiveObject r).categories = none ∨ (effectiveObject r).audits = none))
    ∧ (∀ msg, adaptLighthouseResults (some r) = Except.error msg → msg = "Invalid Lighthouse data.")
    ∧ ((effectiveObject r).categories ≠ none → (effectiveObject r).audits ≠ none
        → ∃ out, adaptLighthouseResults (some r) = Except.ok out) := by
  rcases hc : (effectiveObject r).categories with - | cats
    <;> rcases ha : (effectiveObject r).audits with - | auds
  · have he : adaptLighthouseResults (some r) = Except.error "Invalid Lighthouse data." := by
      simp only [adaptLighthouseResults]
      rw [hc, ha]
    refine ⟨⟨fun _ => Or.inl rfl, fun _ => ⟨_, he⟩⟩, fun msg hmsg => ?_, fun hcne _ => absurd rfl hcne⟩
    rw [he] at hmsg
    exact (Except.error.inj hmsg).symm
  · have he : adaptLighthouseResults (some r) = Except.error "Invalid Lighthouse data." := by
      simp only [adaptLighthouseResults]
      rw [hc, ha]
    refine ⟨⟨fun _ => Or.inl rfl, fun _ => ⟨_, he⟩⟩, fun msg hmsg => ?_, fun hcne _ => absurd rfl hcne⟩
    rw [he] at hmsg
    exact (Except.error.inj hmsg).symm
  · have he : adaptLighthouseResults (some r) = Except.error "Invalid Lighthouse data." := by
      simp only [adaptLighthouseResults]
      rw [hc, ha]
    refine ⟨⟨fun _ => Or.inr rfl, fun _ => ⟨_, he⟩⟩, fun msg hmsg => ?_, fun _ hane => absurd rfl hane⟩
    rw [he] at hmsg
    exact (Except.error.inj hmsg).symm
  · have hok : ∃ out, adaptLighthouseResults (some r) = Except.ok out := by
      simp only [adaptLighthouseResults]
      rw [hc, ha]
      exact ⟨_, rfl⟩
    obtain ⟨out, ho⟩ := hok
    refine ⟨⟨?_, ?_⟩, ?_, fun _ _ => ⟨out, ho⟩⟩
    · rintro ⟨msg, hmsg⟩
      rw [ho] at hmsg
      exact Except.noConfusion hmsg
    · rintro (h | h) <;> exact Option.noConfusion h
    · intro msg hmsg
      rw [ho] at hmsg
      exact Except.noConfusion hmsg

/-- C7 witness: a report with both maps adapts normally; one lacking
`audits` yields exactly the "Invalid Lighthouse data." error. -/
theorem c7_adapter_validation_witness :
    (∃ out, adaptLighthouseResults (some validRawReport) = Except.ok out)
    ∧ (∃ msg, adaptLighthouseResults (some invalidRawReport) = Except.error msg)
    ∧ (∀ msg, adaptLighthouseResults (some invalidRawReport) = Except.error msg
        → msg = "Invalid Lighthouse data.") := by
  refine ⟨(c7_adapter_validation validRawReport).2.2 ?_ ?_, ?_,
    (c7_adapter_validation invalidRawReport).2.1⟩
  · exact fun h => Option.noConfusion h
  · exact fun h => Option.noConfusion h
  · exact (c7_adapter_validation invalidRawReport).1.mpr (Or.inr rfl)

theorem lhScoreLe_trans (a b c : LhAudit) :
    lhScoreLe a b = true → lhScoreLe b c = true → lhScoreLe a c = true := by
  simp only [lhScoreLe, decide_eq_true_eq]
  exact le_trans

theorem lhScoreLe_total (a b : LhAudit) : (lhScoreLe a b || lhScoreLe b a) = true := by
  simp only [lhScoreLe, Bool.or_eq_true, decide_eq_true_eq]
  exact le_total _ _

theorem specSelectedAudits_score_lt (audits : LhAudits) :
    ∀ a ∈ specSelectedAudits audits, a.score.getD 0 < 9/10 := by
  intro a ha
  have h1 : a ∈ ((audits.map Prod.snd).filter
      (fun x => lhScoreable x && decide (x.score.getD 0 < 9/10))).mergeSort lhScoreLe :=
    List.take_subset _ _ ha
  have h2 := (List.mergeSort_perm _ lhScoreLe).mem_iff.mp h1
  have h3 := List.of_mem_filter h2
  exact of_decide_eq_true (Bool.and_elim_right h3)

/-- C8: `buildIssues` returns exactly the audits with a `numeric`
(scoreable) display mode and a numeric score below 0.9, sorted ascending
by score (worst first), truncated to at most 8 entries, and each entry's
severity is error below score 0.5 and warning otherwise (the `info` arm
of the source's conditional is unreachable on kept audits). -/
theorem c8_build_issues_selection (audits : LhAudits) :
    buildIssues audits = (specSelectedAudits audits).map lhIssueOfAuditSpec
    ∧ (specSelectedAudits audits).Pairwise (fun a b => a.score.getD 0 ≤ b.score.getD 0)
    ∧ (buildIssues audits).length ≤ 8 := by
  have hfil : ((audits.map Prod.snd).filter lhScoreable).filter
        (fun a => a.score.getD 0 < 9/10)
      = (audits.map Prod.snd).filter (fun a => lhScoreable a && decide (a.score.getD 0 < 9/10)) := by
    rw [List.filter_filter]
    exact List.filter_congr (fun a _ => Bool.and_comm _ _)
  have hmain : buildIssues audits = (specSelectedAudits audits).map lhIssueOfAuditSpec := by
    show List.map lhIssueOfAudit
        (List.take 8 ((((audits.map Prod.snd).filter lhScoreable).filter
          (fun a => a.score.getD 0 < 9/10)).mergeSort lhScoreLe))
      = (specSelectedAudits audits).map lhIssueOfAuditSpec
    rw [hfil]
    refine List.map_congr_left ?_
    intro a ha
    have hlt := specSelectedAudits_score_lt audits a ha
    have hsev : (if a.score.getD 0 < 1/2 then "error"
        else if a.score.getD 0 < 9/10 then "warning" else "info")
        = (if a.score.getD 0 < 1/2 then "error" else "warning") := by
      by_cases h1 : a.score.getD 0 < 1/2
      · rw [if_pos h1, if_pos h1]
      · rw [if_neg h1, if_neg h1, if_pos hlt]
    simp only [lhIssueOfAudit, lhIssueOfAuditSpec, hsev]
  refine ⟨hmain, ?_, ?_⟩
  · have hsorted := List.sorted_mergeSort lhScoreLe_trans lhScoreLe_total
      ((audits.map Prod.snd).filter (fun a => lhScoreable a && decide (a.score.getD 0 < 9/10)))
    have htake := List.Pairwise.sublist (List.take_sublist 8 _) hsorted
    exact htake.imp (fun h => by
      have := of_decide_eq_true h
      exact this)
  · rw [hmain, List.length_map]
    exact List.length_take_le _ _

theorem calculateCombinedUrlScore_score (s l : Option UrlScoreInput) :
    (calculateCombinedUrlScore s l).score
      = jsRound (((match extractScore s with
            | some q => some (clampScore q)
            | none => none : Option ℤ).getD 0 : ℚ)
          * (match extractScore s, extractScore l with
             | some _, some _ => ((1 : ℚ)/2, (1 : ℚ)/2)
             | some _, none => (1, 0)
             | none, some _ => (0, 1)
             | none, none => (0, 0)).1
          + ((match extractScore l with
            | some q => some (clampScore q)
            | none => none : Option ℤ).getD 0 : ℚ)
          * (match extractScore s, extractScore l with
             | some _, some _ => ((1 : ℚ)/2, (1 : ℚ)/2)
             | some _, none => (1, 0)
             | none, some _ => (0, 1)
             | none, none => (0, 0)).2) := by
  rcases s with - | s <;> rcases l with - | l
  · rfl
  · rcases hl : l.score with - | q <;> simp only [calculateCombinedUrlScore, extractScore, hl]
  · rcases hs : s.score with - | q <;> simp only [calculateCombinedUrlScore, extractScore, hs]
  · rcases hs : s.score with - | qs <;> rcases hl : l.score with - | ql
      <;> simp only [calculateCombinedUrlScore, extractScore, hs, hl]

theorem calculateCombinedUrlScore_weights (s l : Option UrlScoreInput) :
    (calculateCombinedUrlScore s l).sourceScores.staticWeight
      = (match extractScore s, extractScore l with
         | some _, some _ => (1 : ℚ)/2
         | some _, none => 1
         | none, _ => 0)
    ∧ (calculateCombinedUrlScore s l).sourceScores.lighthouseWeight
      = (match extractScore s, extractScore l with
         | some _, some _ => (1 : ℚ)/2
         | none, some _ => 1
         | _, none => 0) := by
  rcases s with - | s <;> rcases l with - | l
  · exact ⟨rfl, rfl⟩
  · rcases hl : l.score with - | q
      <;> constructor <;> simp only [calculateCombinedUrlScore, extractScore, hl]
  · rcases hs : s.score with - | q
      <;> constructor <;> simp only [calculateCombinedUrlScore, extractScore, hs]
  · rcases hs : s.score with - | qs <;> rcases hl : l.score with - | ql
      <;> constructor <;> simp only [calculateCombinedUrlScore, extractScore, hs, hl]

/-- C10: `calculateCombinedUrlScore` rounds and clamps each present
finite input score into [0,100], weights 50/50 when both are present
(100/0 or 0/100 when one is, 0 weight for an absent or non-finite
score), and the combined score equals the claim-side `combinedScoreSpec`
formula, hence is always an integer in [0,100] and 0 when both scores
are absent. -/
theorem c10_combined_score_clamped (s l : Option UrlScoreInput) :
    (calculateCombinedUrlScore s l).score = combinedScoreSpec (extractScore s) (extractScore l)
    ∧ 0 ≤ (calculateCombinedUrlScore s l).score
    ∧ (calculateCombinedUrlScore s l).score ≤ 100
    ∧ (extractScore s = none → extractScore l = none
        → (calculateCombinedUrlScore s l).score = 0)
    ∧ (calculateCombinedUrlScore s l).sourceScores.staticWeight
      = (match extractScore s, extractScore l with
         | some _, some _ => (1 : ℚ)/2
         | some _, none => 1
         | none, _ => 0)
    ∧ (calculateCombinedUrlScore s l).sourceScores.lighthouseWeight
      = (match extractScore s, extractScore l with
         | some _, some _ => (1 : ℚ)/2
         | none, some _ => 1
         | _, none => 0) := by
  have hw := calculateCombinedUrlScore_weights s l
  have hsc := calculateCombinedUrlScore_score s l
  have hmain : (calculateCombinedUrlScore s l).score
      = combinedScoreSpec (extractScore s) (extractScore l) := by
    rw [hsc]
    rcases extractScore s with - | qs <;> rcases extractScore l with - | ql
      <;> simp only [combinedScoreSpec, Option.getD_some, Option.getD_none]
    · exact_mod_cast jsRound_intCast 0
    · simp only [Int.cast_zero, zero_mul, mul_one, zero_add, add_zero]
      exact jsRound_intCast _
    · simp only [Int.cast_zero, zero_mul, mul_one, zero_add, add_zero]
      exact jsRound_intCast _
    · congr 1
      ring
  have hbounds : 0 ≤ (calculateCombinedUrlScore s l).score
      ∧ (calculateCombinedUrlScore s l).score ≤ 100 := by
    rw [hmain]
    rcases extractScore s with - | qs <;> rcases extractScore l with - | ql
      <;> simp only [combinedScoreSpec]
    · norm_num
    · exact ⟨clampScore_nonneg ql, clampScore_le_hundred ql⟩
    · exact ⟨clampScore_nonneg qs, clampScore_le_hundred qs⟩
    · have h1 := clampScore_nonneg qs
      have h2 := clampScore_le_hundred qs
      have h3 := clampScore_nonneg ql
      have h4 := clampScore_le_hundred ql
      constructor
      · refine jsRound_nonneg ?_
        have h1q : (0 : ℚ) ≤ (clampScore qs : ℚ) := by exact_mod_cast h1
        have h3q : (0 : ℚ) ≤ (clampScore ql : ℚ) := by exact_mod_cast h3
        linarith
      · refine jsRound_le_hundred ?_
        have h2q : (clampScore qs : ℚ) ≤ 100 := by exact_mod_cast h2
        have h4q : (clampScore ql : ℚ) ≤ 100 := by exact_mod_cast h4
        linarith
  refine ⟨hmain, hbounds.1, hbounds.2, ?_, hw.1, hw.2⟩
  intro hs hl
  rw [hmain, hs, hl]
  rfl

/-- C10 witness: with both inputs absent the combined score is exactly 0,
by `c10_combined_score_clamped` at the concrete input `none, none`. -/
theorem c10_combined_score_clamped_witness :
    extractScore (none : Option UrlScoreInput) = none
    ∧ (calculateCombinedUrlScore none none).score = 0 :=
  ⟨rfl, (c10_combined_score_clamped none none).2.2.2.1 rfl rfl⟩
